import Mathlib

/-!
Verification of the jismesh library (JIS X0410 regional mesh codes).

Shallow embedding conventions:
* Rust `f64` coordinate arithmetic is modelled over `ℚ` with exact
  arithmetic; `x as u64` (truncation toward zero, saturating at 0) on a
  nonnegative value is `⌊x⌋.toNat`, and `a % b` on nonnegative floats is
  `fmod a b = a - b * ⌊a / b⌋`.
* `(t as f64).log10().floor() as u32 + 1` (the digit count of a `u64`) is
  modelled by the structural digit counter `numDigits`, which agrees with
  it on the whole `u64` range (including `numDigits 0 = 1`, matching the
  saturating cast of `-inf`).
* Rust `Result` is `Except JismeshError`; functions that can panic
  (division by zero / out-of-bounds indexing) return `Outcome`, which adds
  a `panicked` constructor.
* Batched `ndarray` values are Lean lists; elementwise `mapv` bodies are
  embedded as single-element functions applied pointwise.
-/

/-- The fourteen mesh levels, in the declaration order of
`src/utils/levels.rs` (`enum MeshLevel`). -/
inductive MeshLevel where
  | Lv1
  | X40
  | X20
  | X16
  | Lv2
  | X8
  | X5
  | X4
  | X2_5
  | X2
  | Lv3
  | Lv4
  | Lv5
  | Lv6
  deriving DecidableEq, Fintype

/-- The explicit Rust discriminant of each `MeshLevel` variant
(`Lv1 = 1, X40 = 40000, ...`). -/
def levelDiscriminant : MeshLevel → ℕ
  | .Lv1 => 1
  | .X40 => 40000
  | .X20 => 20000
  | .X16 => 16000
  | .Lv2 => 2
  | .X8 => 8000
  | .X5 => 5000
  | .X4 => 4000
  | .X2_5 => 2500
  | .X2 => 2000
  | .Lv3 => 3
  | .Lv4 => 4
  | .Lv5 => 5
  | .Lv6 => 6

/-- The strict order `<` of the derived `Ord`/`PartialOrd` on the Rust
enum: for an enum with explicit discriminants, the derived comparison
orders variants by discriminant value. -/
def levelLt (a b : MeshLevel) : Prop :=
  levelDiscriminant a < levelDiscriminant b

instance (a b : MeshLevel) : Decidable (levelLt a b) := by
  unfold levelLt; infer_instance

/-- `enum JismeshError` from `src/utils/error.rs`.  Float payloads are
rationals; the `strum::ParseError` payload of `ParseError` is dropped
(it is never used by the functions verified here). -/
inductive JismeshError where
  | LatitudeOutOfBounds (v : ℚ)
  | LongitudeOutOfBounds (v : ℚ)
  | UnknownMeshLevelForCode (code : ℕ)
  | InvalidMeshcodeAtLevel (pos : ℕ) (code : ℕ)
  | InvalidMeshLevel (v : ℕ)
  | InvalidMeshLevelForLowerLevel (fromLevel toLevel : MeshLevel)
  | UnsupportedMeshLevelConversion (fromLevel toLevel : MeshLevel)
  | MismatchedMeshLevels (a b : MeshLevel)
  | ParseError
  deriving DecidableEq

/-- The result of running a Rust function that may also panic
(remainder by zero, out-of-bounds indexing). -/
inductive Outcome (α : Type) where
  | ok (a : α)
  | error (e : JismeshError)
  | panicked
  deriving DecidableEq

deriving instance DecidableEq for Except

/-! Unit-size constants from `src/utils/mod.rs`. -/

def UNIT_LAT_LV1 : ℚ := 2 / 3
def UNIT_LON_LV1 : ℚ := 1
def UNIT_LAT_40000 : ℚ := UNIT_LAT_LV1 / 2
def UNIT_LON_40000 : ℚ := UNIT_LON_LV1 / 2
def UNIT_LAT_20000 : ℚ := UNIT_LAT_40000 / 2
def UNIT_LON_20000 : ℚ := UNIT_LON_40000 / 2
def UNIT_LAT_16000 : ℚ := UNIT_LAT_LV1 / 5
def UNIT_LON_16000 : ℚ := UNIT_LON_LV1 / 5
def UNIT_LAT_LV2 : ℚ := UNIT_LAT_LV1 / 8
def UNIT_LON_LV2 : ℚ := UNIT_LON_LV1 / 8
def UNIT_LAT_8000 : ℚ := UNIT_LAT_LV1 / 10
def UNIT_LON_8000 : ℚ := UNIT_LON_LV1 / 10
def UNIT_LAT_5000 : ℚ := UNIT_LAT_LV2 / 2
def UNIT_LON_5000 : ℚ := UNIT_LON_LV2 / 2
def UNIT_LAT_4000 : ℚ := UNIT_LAT_8000 / 2
def UNIT_LON_4000 : ℚ := UNIT_LON_8000 / 2
def UNIT_LAT_2500 : ℚ := UNIT_LAT_5000 / 2
def UNIT_LON_2500 : ℚ := UNIT_LON_5000 / 2
def UNIT_LAT_2000 : ℚ := UNIT_LAT_LV2 / 5
def UNIT_LON_2000 : ℚ := UNIT_LON_LV2 / 5
def UNIT_LAT_LV3 : ℚ := UNIT_LAT_LV2 / 10
def UNIT_LON_LV3 : ℚ := UNIT_LON_LV2 / 10
def UNIT_LAT_LV4 : ℚ := UNIT_LAT_LV3 / 2
def UNIT_LON_LV4 : ℚ := UNIT_LON_LV3 / 2
def UNIT_LAT_LV5 : ℚ := UNIT_LAT_LV4 / 2
def UNIT_LON_LV5 : ℚ := UNIT_LON_LV4 / 2
def UNIT_LAT_LV6 : ℚ := UNIT_LAT_LV5 / 2
def UNIT_LON_LV6 : ℚ := UNIT_LON_LV5 / 2

/-- `unit_lat_lon` from `src/utils/mod.rs`. -/
def unit_lat_lon : MeshLevel → ℚ × ℚ
  | .Lv1 => (UNIT_LAT_LV1, UNIT_LON_LV1)
  | .X40 => (UNIT_LAT_40000, UNIT_LON_40000)
  | .X20 => (UNIT_LAT_20000, UNIT_LON_20000)
  | .X16 => (UNIT_LAT_16000, UNIT_LON_16000)
  | .Lv2 => (UNIT_LAT_LV2, UNIT_LON_LV2)
  | .X8 => (UNIT_LAT_8000, UNIT_LON_8000)
  | .X5 => (UNIT_LAT_5000, UNIT_LON_5000)
  | .X4 => (UNIT_LAT_4000, UNIT_LON_4000)
  | .X2_5 => (UNIT_LAT_2500, UNIT_LON_2500)
  | .X2 => (UNIT_LAT_2000, UNIT_LON_2000)
  | .Lv3 => (UNIT_LAT_LV3, UNIT_LON_LV3)
  | .Lv4 => (UNIT_LAT_LV4, UNIT_LON_LV4)
  | .Lv5 => (UNIT_LAT_LV5, UNIT_LON_LV5)
  | .Lv6 => (UNIT_LAT_LV6, UNIT_LON_LV6)

def unit_lat (level : MeshLevel) : ℚ := (unit_lat_lon level).1

def unit_lon (level : MeshLevel) : ℚ := (unit_lat_lon level).2

/-- Fuel-driven helper for `numDigits` (structural, so that the kernel
can evaluate it). -/
def numDigitsAux : ℕ → ℕ → ℕ
  | 0, _ => 0
  | fuel + 1, n => if n < 10 then 1 else numDigitsAux fuel (n / 10) + 1

/-- Decimal digit count of a `u64`, as computed by
`(t as f64).log10().floor() as u32 + 1` in `src/utils/mod.rs`
(`numDigits 0 = 1`, matching the saturating cast of `-inf`). -/
def numDigits (n : ℕ) : ℕ := numDigitsAux (n + 1) n

/-- The elementwise body of `slice` from `src/utils/mod.rs`: the decimal
digits of `t` from position `start` (0 = most significant) up to
`stop` (exclusive); 0 if `t` has fewer than `stop` digits. -/
def slice1 (t : ℕ) (start stop : ℕ) : ℕ :=
  let num_digits := numDigits t
  if num_digits < stop then 0
  else
    let mask1 := 10 ^ (num_digits - start)
    let mask2 := 10 ^ (num_digits - stop)
    (t % mask1) / mask2

/-- The per-element branch of `to_meshlevel` from
`src/utils/meshlevel.rs` (the `match num_digits[idx]` block; the `g`,
`i`, `j`, `k` arrays are `slice` applied elementwise). -/
def to_meshlevel_one (code : ℕ) : Except JismeshError MeshLevel :=
  let nd := numDigits code
  if nd = 4 then .ok .Lv1
  else if nd = 5 then .ok .X40
  else if nd = 6 then .ok .Lv2
  else if nd = 7 then
    let g := slice1 code 6 7
    if 1 ≤ g ∧ g ≤ 4 then .ok .X5
    else if g = 5 then .ok .X20
    else if g = 6 then .ok .X8
    else if g = 7 then .ok .X16
    else .error (.InvalidMeshcodeAtLevel 7 code)
  else if nd = 8 then .ok .Lv3
  else if nd = 9 then
    let i := slice1 code 8 9
    if 1 ≤ i ∧ i ≤ 4 then .ok .Lv4
    else if i = 5 then .ok .X2
    else if i = 6 then .ok .X2_5
    else if i = 7 then .ok .X4
    else .error (.InvalidMeshcodeAtLevel 9 code)
  else if nd = 10 then
    let j := slice1 code 9 10
    if 1 ≤ j ∧ j ≤ 4 then .ok .Lv5
    else .error (.InvalidMeshcodeAtLevel 10 code)
  else if nd = 11 then
    let k := slice1 code 10 11
    if 1 ≤ k ∧ k ≤ 4 then .ok .Lv6
    else .error (.InvalidMeshcodeAtLevel 11 code)
  else .error (.UnknownMeshLevelForCode code)

/-- The elementwise loop of `to_meshlevel`: push each level, returning
early at the first failing element. -/
def levelsOf : List ℕ → Except JismeshError (List MeshLevel)
  | [] => .ok []
  | c :: rest =>
    match to_meshlevel_one c with
    | .error e => .error e
    | .ok l =>
      match levelsOf rest with
      | .error e => .error e
      | .ok ls => .ok (l :: ls)

/-- `to_meshlevel` from `src/utils/meshlevel.rs`: first the whole batch
is scanned for a zero code, then levels are determined elementwise,
returning at the first failure. -/
def to_meshlevel (meshcode : List ℕ) : Except JismeshError (List MeshLevel) :=
  if meshcode.any (fun code => code == 0) then
    .error (.UnknownMeshLevelForCode 0)
  else levelsOf meshcode

/-- `struct MeshCode` from `src/utils/meshcode.rs`. -/
structure MeshCode where
  value : ℕ
  level : MeshLevel
  deriving DecidableEq

/-- `MeshCode::lower_level` from `src/utils/meshcode.rs`.  The guard
`level > self.level` uses the derived (discriminant-based) order. -/
def lower_level (c : MeshCode) (level : MeshLevel) : Except JismeshError MeshCode :=
  if levelLt c.level level then
    .error (.InvalidMeshLevelForLowerLevel c.level level)
  else
    let new_value : Except JismeshError ℕ :=
      if c.level = level then .ok c.value
      else
        match c.level, level with
        | .Lv3, .Lv2 => .ok (c.value / 100)
        | .Lv2, .Lv1 => .ok (c.value / 100)
        | .Lv3, .Lv1 => .ok (c.value / 10000)
        | _, _ => .error (.UnsupportedMeshLevelConversion c.level level)
    match new_value with
    | .ok v => .ok ⟨v, level⟩
    | .error e => .error e

/-! ## Encoder (`src/utils/meshcode.rs`) -/

/-- Rust `a % b` on (nonnegative) `f64` values: `a - b * ⌊a / b⌋`. -/
def fmod (a b : ℚ) : ℚ := a - b * ⌊a / b⌋

/-- Rust `x as u64` on a (nonnegative) `f64` value: truncation toward
zero, saturating at 0 for negative values. -/
def ratToU64 (x : ℚ) : ℕ := (⌊x⌋).toNat

/-- `meshcode_lv1` from `src/utils/meshcode.rs`. -/
def meshcode_lv1 (lat lon : ℚ) : MeshCode :=
  let rem_lat_lv0 := lat
  let rem_lon_lv0 := fmod lon 100
  let ab := ratToU64 (rem_lat_lv0 / UNIT_LAT_LV1)
  let cd := ratToU64 (rem_lon_lv0 / UNIT_LON_LV1)
  ⟨ab * 100 + cd, .Lv1⟩

/-- `meshcode_40000` from `src/utils/meshcode.rs`. -/
def meshcode_40000 (lat lon : ℚ) : MeshCode :=
  let base := (meshcode_lv1 lat lon).value
  let rem_lat_lv1 := fmod lat UNIT_LAT_LV1
  let rem_lon_lv1 := fmod (fmod lon 100) UNIT_LON_LV1
  let e := ratToU64 (rem_lat_lv1 / UNIT_LAT_40000) * 2
    + ratToU64 (rem_lon_lv1 / UNIT_LON_40000) + 1
  ⟨base * 10 + e, .X40⟩

/-- `meshcode_20000` from `src/utils/meshcode.rs`. -/
def meshcode_20000 (lat lon : ℚ) : MeshCode :=
  let base := meshcode_40000 lat lon
  let rem_lat_lv1 := fmod lat UNIT_LAT_LV1
  let rem_lon_lv1 := fmod (fmod lon 100) UNIT_LON_LV1
  let rem_lat_40000 := fmod rem_lat_lv1 UNIT_LAT_40000
  let rem_lon_40000 := fmod rem_lon_lv1 UNIT_LON_40000
  let f := ratToU64 (rem_lat_40000 / UNIT_LAT_20000) * 2
    + ratToU64 (rem_lon_40000 / UNIT_LON_20000) + 1
  let g := 5
  ⟨base.value * 100 + f * 10 + g, .X20⟩

/-- `meshcode_16000` from `src/utils/meshcode.rs`. -/
def meshcode_16000 (lat lon : ℚ) : MeshCode :=
  let base := meshcode_lv1 lat lon
  let rem_lat_lv1 := fmod lat UNIT_LAT_LV1
  let rem_lon_lv1 := fmod (fmod lon 100) UNIT_LON_LV1
  let e := ratToU64 (rem_lat_lv1 / UNIT_LAT_16000) * 2
  let f := ratToU64 (rem_lon_lv1 / UNIT_LON_16000) * 2
  let g := 7
  ⟨base.value * 1000 + e * 100 + f * 10 + g, .X16⟩

/-- `meshcode_lv2` from `src/utils/meshcode.rs`. -/
def meshcode_lv2 (lat lon : ℚ) : MeshCode :=
  let base := meshcode_lv1 lat lon
  let rem_lat_lv1 := fmod lat UNIT_LAT_LV1
  let rem_lon_lv1 := fmod (fmod lon 100) UNIT_LON_LV1
  let e := ratToU64 (rem_lat_lv1 / UNIT_LAT_LV2)
  let f := ratToU64 (rem_lon_lv1 / UNIT_LON_LV2)
  ⟨base.value * 100 + e * 10 + f, .Lv2⟩

/-- `meshcode_8000` from `src/utils/meshcode.rs`. -/
def meshcode_8000 (lat lon : ℚ) : MeshCode :=
  let base := meshcode_lv1 lat lon
  let rem_lat_lv1 := fmod lat UNIT_LAT_LV1
  let rem_lon_lv1 := fmod (fmod lon 100) UNIT_LON_LV1
  let e := ratToU64 (rem_lat_lv1 / UNIT_LAT_8000)
  let f := ratToU64 (rem_lon_lv1 / UNIT_LON_8000)
  let g := 6
  ⟨base.value * 1000 + e * 100 + f * 10 + g, .X8⟩

/-- `meshcode_5000` from `src/utils/meshcode.rs`. -/
def meshcode_5000 (lat lon : ℚ) : MeshCode :=
  let base := meshcode_lv2 lat lon
  let rem_lat_lv2 := fmod (fmod lat UNIT_LAT_LV1) UNIT_LAT_LV2
  let rem_lon_lv2 := fmod (fmod (fmod lon 100) UNIT_LON_LV1) UNIT_LON_LV2
  let g := ratToU64 (rem_lat_lv2 / UNIT_LAT_5000) * 2
    + ratToU64 (rem_lon_lv2 / UNIT_LON_5000) + 1
  ⟨base.value * 10 + g, .X5⟩

/-- `meshcode_4000` from `src/utils/meshcode.rs`. -/
def meshcode_4000 (lat lon : ℚ) : MeshCode :=
  let base := meshcode_8000 lat lon
  let rem_lat_lv1 := fmod lat UNIT_LAT_LV1
  let rem_lon_lv1 := fmod (fmod lon 100) UNIT_LON_LV1
  let rem_lat_8000 := fmod rem_lat_lv1 UNIT_LAT_8000
  let rem_lon_8000 := fmod rem_lon_lv1 UNIT_LON_8000
  let h := ratToU64 (rem_lat_8000 / UNIT_LAT_4000) * 2
    + ratToU64 (rem_lon_8000 / UNIT_LON_4000) + 1
  let i := 7
  ⟨base.value * 100 + h * 10 + i, .X4⟩

/-- `meshcode_2500` from `src/utils/meshcode.rs`. -/
def meshcode_2500 (lat lon : ℚ) : MeshCode :=
  let base := meshcode_5000 lat lon
  let rem_lat_lv2 := fmod (fmod lat UNIT_LAT_LV1) UNIT_LAT_LV2
  let rem_lon_lv2 := fmod (fmod (fmod lon 100) UNIT_LON_LV1) UNIT_LON_LV2
  let rem_lat_5000 := fmod rem_lat_lv2 UNIT_LAT_5000
  let rem_lon_5000 := fmod rem_lon_lv2 UNIT_LON_5000
  let h := ratToU64 (rem_lat_5000 / UNIT_LAT_2500) * 2
    + ratToU64 (rem_lon_5000 / UNIT_LON_2500) + 1
  let i := 6
  ⟨base.value * 100 + h * 10 + i, .X2_5⟩

/-- `meshcode_2000` from `src/utils/meshcode.rs`. -/
def meshcode_2000 (lat lon : ℚ) : MeshCode :=
  let base := meshcode_lv2 lat lon
  let rem_lat_lv2 := fmod (fmod lat UNIT_LAT_LV1) UNIT_LAT_LV2
  let rem_lon_lv2 := fmod (fmod (fmod lon 100) UNIT_LON_LV1) UNIT_LON_LV2
  let g := ratToU64 (rem_lat_lv2 / UNIT_LAT_2000) * 2
  let h := ratToU64 (rem_lon_lv2 / UNIT_LON_2000) * 2
  let i := 5
  ⟨base.value * 1000 + g * 100 + h * 10 + i, .X2⟩

/-- `meshcode_lv3` from `src/utils/meshcode.rs`. -/
def meshcode_lv3 (lat lon : ℚ) : MeshCode :=
  let base := meshcode_lv2 lat lon
  let rem_lat_lv2 := fmod (fmod lat UNIT_LAT_LV1) UNIT_LAT_LV2
  let rem_lon_lv2 := fmod (fmod (fmod lon 100) UNIT_LON_LV1) UNIT_LON_LV2
  let g := ratToU64 (rem_lat_lv2 / UNIT_LAT_LV3)
  let h := ratToU64 (rem_lon_lv2 / UNIT_LON_LV3)
  ⟨base.value * 100 + g * 10 + h, .Lv3⟩

/-- `meshcode_lv4` from `src/utils/meshcode.rs`. -/
def meshcode_lv4 (lat lon : ℚ) : MeshCode :=
  let base := meshcode_lv3 lat lon
  let rem_lat_lv3 := fmod (fmod (fmod lat UNIT_LAT_LV1) UNIT_LAT_LV2) UNIT_LAT_LV3
  let rem_lon_lv3 :=
    fmod (fmod (fmod (fmod lon 100) UNIT_LON_LV1) UNIT_LON_LV2) UNIT_LON_LV3
  let i := ratToU64 (rem_lat_lv3 / UNIT_LAT_LV4) * 2
    + ratToU64 (rem_lon_lv3 / UNIT_LON_LV4) + 1
  ⟨base.value * 10 + i, .Lv4⟩

/-- `meshcode_lv5` from `src/utils/meshcode.rs`. -/
def meshcode_lv5 (lat lon : ℚ) : MeshCode :=
  let base := meshcode_lv4 lat lon
  let rem_lat_lv4 :=
    fmod (fmod (fmod (fmod lat UNIT_LAT_LV1) UNIT_LAT_LV2) UNIT_LAT_LV3) UNIT_LAT_LV4
  let rem_lon_lv4 :=
    fmod (fmod (fmod (fmod (fmod lon 100) UNIT_LON_LV1) UNIT_LON_LV2) UNIT_LON_LV3)
      UNIT_LON_LV4
  let j := ratToU64 (rem_lat_lv4 / UNIT_LAT_LV5) * 2
    + ratToU64 (rem_lon_lv4 / UNIT_LON_LV5) + 1
  ⟨base.value * 10 + j, .Lv5⟩

/-- `meshcode_lv6` from `src/utils/meshcode.rs`. -/
def meshcode_lv6 (lat lon : ℚ) : MeshCode :=
  let base := meshcode_lv5 lat lon
  let rem_lat_lv5 :=
    fmod (fmod (fmod (fmod (fmod lat UNIT_LAT_LV1) UNIT_LAT_LV2) UNIT_LAT_LV3)
      UNIT_LAT_LV4) UNIT_LAT_LV5
  let rem_lon_lv5 :=
    fmod (fmod (fmod (fmod (fmod (fmod lon 100) UNIT_LON_LV1) UNIT_LON_LV2)
      UNIT_LON_LV3) UNIT_LON_LV4) UNIT_LON_LV5
  let k := ratToU64 (rem_lat_lv5 / UNIT_LAT_LV6) * 2
    + ratToU64 (rem_lon_lv5 / UNIT_LON_LV6) + 1
  ⟨base.value * 10 + k, .Lv6⟩

/-- The `match level` dispatch inside the `to_meshcode` loop. -/
def meshcodeAt (level : MeshLevel) (lat lon : ℚ) : MeshCode :=
  match level with
  | .Lv1 => meshcode_lv1 lat lon
  | .X40 => meshcode_40000 lat lon
  | .X20 => meshcode_20000 lat lon
  | .X16 => meshcode_16000 lat lon
  | .Lv2 => meshcode_lv2 lat lon
  | .X8 => meshcode_8000 lat lon
  | .X5 => meshcode_5000 lat lon
  | .X4 => meshcode_4000 lat lon
  | .X2_5 => meshcode_2500 lat lon
  | .X2 => meshcode_2000 lat lon
  | .Lv3 => meshcode_lv3 lat lon
  | .Lv4 => meshcode_lv4 lat lon
  | .Lv5 => meshcode_lv5 lat lon
  | .Lv6 => meshcode_lv6 lat lon

/-- `!(0.0..66.66).contains(&lat_val)` from `to_meshcode`. -/
def latInvalid (v : ℚ) : Bool := !(decide (0 ≤ v) && decide (v < 6666 / 100))

/-- `!(100.0..180.0).contains(&lon_val)` from `to_meshcode`. -/
def lonInvalid (v : ℚ) : Bool := !(decide (100 ≤ v) && decide (v < 180))

/-- `to_meshcode` from `src/utils/meshcode.rs`.  Both coordinate lists
are validated up front (the first offending value is reported); then the
loop runs `max` of the lengths times, indexing each list by
`i % len` — which panics with a remainder-by-zero whenever the loop runs
and one of the lists is empty. -/
def to_meshcode (lat lon : List ℚ) (level : MeshLevel) : Outcome (List MeshCode) :=
  match lat.find? latInvalid with
  | some v => .error (.LatitudeOutOfBounds v)
  | none =>
    match lon.find? lonInvalid with
    | some v => .error (.LongitudeOutOfBounds v)
    | none =>
      let result_len := max lat.length lon.length
      if result_len = 0 then .ok []
      else if lat.length = 0 ∨ lon.length = 0 then .panicked
      else
        .ok ((List.range result_len).map fun i =>
          meshcodeAt level (lat.getD (i % lat.length) 0) (lon.getD (i % lon.length) 0))

/-! ## Decoder (`src/utils/meshpoint.rs`) -/

/-- The per-index coordinate reconstruction of `to_meshpoint`
(`apply_base_adjustment` followed by the `match level[idx]` block),
before the multiplier adjustment.  `ab, cd, e, f, g, h, i, j, k` are the
digit-group slices of the code. -/
def decodeCell (code : ℕ) (level : MeshLevel) : ℚ × ℚ :=
  let ab := slice1 code 0 2
  let cd := slice1 code 2 4
  let e := slice1 code 4 5
  let f := slice1 code 5 6
  let g := slice1 code 6 7
  let h := slice1 code 7 8
  let i := slice1 code 8 9
  let j := slice1 code 9 10
  let k := slice1 code 10 11
  let lat0 : ℚ := (ab : ℚ) * UNIT_LAT_LV1
  let lon0 : ℚ := (cd : ℚ) * UNIT_LON_LV1 + 100
  match level with
  | .Lv1 => (lat0, lon0)
  | .X40 =>
    (lat0 + (if e / 3 = 1 then UNIT_LAT_40000 else 0),
     lon0 + (if e % 2 = 0 then UNIT_LON_40000 else 0))
  | .X20 =>
    (lat0 + (if e / 3 = 1 then UNIT_LAT_40000 else 0)
      + (if f / 3 = 1 then UNIT_LAT_20000 else 0),
     lon0 + (if e % 2 = 0 then UNIT_LON_40000 else 0)
      + (if f % 2 = 0 then UNIT_LON_20000 else 0))
  | .X16 =>
    (lat0 + (e / 2 : ℕ) * UNIT_LAT_16000,
     lon0 + (f / 2 : ℕ) * UNIT_LON_16000)
  | .X8 =>
    (lat0 + (e : ℚ) * UNIT_LAT_8000, lon0 + (f : ℚ) * UNIT_LON_8000)
  | .X4 =>
    (lat0 + (e : ℚ) * UNIT_LAT_8000 + (if h / 3 = 1 then UNIT_LAT_4000 else 0),
     lon0 + (f : ℚ) * UNIT_LON_8000 + (if h % 2 = 0 then UNIT_LON_4000 else 0))
  | .Lv2 =>
    (lat0 + (e : ℚ) * UNIT_LAT_LV2, lon0 + (f : ℚ) * UNIT_LON_LV2)
  | .X5 =>
    (lat0 + (e : ℚ) * UNIT_LAT_LV2 + (if g / 3 = 1 then UNIT_LAT_5000 else 0),
     lon0 + (f : ℚ) * UNIT_LON_LV2 + (if g % 2 = 0 then UNIT_LON_5000 else 0))
  | .X2_5 =>
    (lat0 + (e : ℚ) * UNIT_LAT_LV2 + (if g / 3 = 1 then UNIT_LAT_5000 else 0)
      + (if h / 3 = 1 then UNIT_LAT_2500 else 0),
     lon0 + (f : ℚ) * UNIT_LON_LV2 + (if g % 2 = 0 then UNIT_LON_5000 else 0)
      + (if h % 2 = 0 then UNIT_LON_2500 else 0))
  | .X2 =>
    (lat0 + (e : ℚ) * UNIT_LAT_LV2 + (g / 2 : ℕ) * UNIT_LAT_2000,
     lon0 + (f : ℚ) * UNIT_LON_LV2 + (h / 2 : ℕ) * UNIT_LON_2000)
  | .Lv3 =>
    (lat0 + (e : ℚ) * UNIT_LAT_LV2 + (g : ℚ) * UNIT_LAT_LV3,
     lon0 + (f : ℚ) * UNIT_LON_LV2 + (h : ℚ) * UNIT_LON_LV3)
  | .Lv4 =>
    (lat0 + (e : ℚ) * UNIT_LAT_LV2 + (g : ℚ) * UNIT_LAT_LV3
      + (if i / 3 = 1 then UNIT_LAT_LV4 else 0),
     lon0 + (f : ℚ) * UNIT_LON_LV2 + (h : ℚ) * UNIT_LON_LV3
      + (if i % 2 = 0 then UNIT_LON_LV4 else 0))
  | .Lv5 =>
    (lat0 + (e : ℚ) * UNIT_LAT_LV2 + (g : ℚ) * UNIT_LAT_LV3
      + (if i / 3 = 1 then UNIT_LAT_LV4 else 0)
      + (if j / 3 = 1 then UNIT_LAT_LV5 else 0),
     lon0 + (f : ℚ) * UNIT_LON_LV2 + (h : ℚ) * UNIT_LON_LV3
      + (if i % 2 = 0 then UNIT_LON_LV4 else 0)
      + (if j % 2 = 0 then UNIT_LON_LV5 else 0))
  | .Lv6 =>
    (lat0 + (e : ℚ) * UNIT_LAT_LV2 + (g : ℚ) * UNIT_LAT_LV3
      + (if i / 3 = 1 then UNIT_LAT_LV4 else 0)
      + (if j / 3 = 1 then UNIT_LAT_LV5 else 0)
      + (if k / 3 = 1 then UNIT_LAT_LV6 else 0),
     lon0 + (f : ℚ) * UNIT_LON_LV2 + (h : ℚ) * UNIT_LON_LV3
      + (if i % 2 = 0 then UNIT_LON_LV4 else 0)
      + (if j % 2 = 0 then UNIT_LON_LV5 else 0)
      + (if k % 2 = 0 then UNIT_LON_LV6 else 0))

/-- `to_meshpoint` from `src/utils/meshpoint.rs`.  Per index, the cell
coordinates are reconstructed and then `apply_multipliers` adds
`unit * multiplier[idx.min(len - 1)]`; with a nonempty code list and an
empty multiplier list the `len - 1` underflow / indexing panics. -/
def to_meshpoint (codes : List ℕ) (latMult lonMult : List ℚ) :
    Outcome (List (ℚ × ℚ)) :=
  match to_meshlevel codes with
  | .error e => .error e
  | .ok levels =>
    if codes.length ≠ 0 ∧ (latMult.length = 0 ∨ lonMult.length = 0) then .panicked
    else
      .ok ((List.range codes.length).map fun idx =>
        let code := codes.getD idx 0
        let level := levels.getD idx .Lv1
        let p := decodeCell code level
        (p.1 + unit_lat level * latMult.getD (min idx (latMult.length - 1)) 0,
         p.2 + unit_lon level * lonMult.getD (min idx (lonMult.length - 1)) 0))

/-! ## Envelope (`src/utils/envelope.rs`) -/

/-- `make_envelope` from `src/utils/envelope.rs`: tile the bounding box
with `ceil`-many steps of the target level's unit in each axis
(row-major), then encode every sample point. -/
def make_envelope (lat_s lon_w lat_n lon_e : ℚ) (level : MeshLevel) :
    Outcome (List MeshCode) :=
  let to_unit_lat := unit_lat level
  let to_unit_lon := unit_lon level
  let lat_count := (⌈(lat_n - lat_s) / to_unit_lat⌉).toNat
  let lon_count := (⌈(lon_e - lon_w) / to_unit_lon⌉).toNat
  let idx := (List.range lat_count).flatMap fun i =>
    (List.range lon_count).map fun j => (i, j)
  let lats := idx.map fun p => lat_s + (p.1 : ℚ) * to_unit_lat
  let lons := idx.map fun p => lon_w + (p.2 : ℚ) * to_unit_lon
  to_meshcode lats lons level

/-- `to_envelope` from `src/utils/envelope.rs`. -/
def to_envelope (meshcode_sw meshcode_ne : MeshCode) : Outcome (List MeshCode) :=
  let level_sw := meshcode_sw.level
  let level_ne := meshcode_ne.level
  if level_sw ≠ level_ne then .error (.MismatchedMeshLevels level_sw level_ne)
  else
    match to_meshpoint [meshcode_sw.value] [1/2] [1/2] with
    | .error e => .error e
    | .panicked => .panicked
    | .ok sw_points =>
      match to_meshpoint [meshcode_ne.value] [1] [1] with
      | .error e => .error e
      | .panicked => .panicked
      | .ok ne_points =>
        let lat_s := (sw_points.getD 0 (0, 0)).1
        let lon_w := (sw_points.getD 0 (0, 0)).2
        let lat_n := (ne_points.getD 0 (0, 0)).1
        let lon_e := (ne_points.getD 0 (0, 0)).2
        make_envelope lat_s lon_w lat_n lon_e level_sw

/-! ## Spec-side definitions (used to state refinement claims) -/

/-- Modelled from the spec, for comparison with `to_meshlevel_one`: the
digit count as the mathematical number of decimal digits. -/
def claimedNumDigits (code : ℕ) : ℕ := (Nat.digits 10 code).length

/-- Modelled from the spec, for comparison with `to_meshlevel_one`: the
decimal digit of `code` at position `pos`, 0-indexed from the most
significant digit. -/
def digitAt (code pos : ℕ) : ℕ :=
  code / 10 ^ (claimedNumDigits code - 1 - pos) % 10

/-- Modelled from the claim, for comparison with `to_meshlevel_one`:
level inference exactly as the claim words it (digit count 4 yields Lv1,
5 X40, 6 Lv2, 8 Lv3; 7/9/10/11 inspect the digit at position 6/8/9/10;
code 0 and any other digit count fail with `UnknownMeshLevelForCode`). -/
def claimedLevel (code : ℕ) : Except JismeshError MeshLevel :=
  let nd := claimedNumDigits code
  if nd = 4 then .ok .Lv1
  else if nd = 5 then .ok .X40
  else if nd = 6 then .ok .Lv2
  else if nd = 7 then
    let g := digitAt code 6
    if 1 ≤ g ∧ g ≤ 4 then .ok .X5
    else if g = 5 then .ok .X20
    else if g = 6 then .ok .X8
    else if g = 7 then .ok .X16
    else .error (.InvalidMeshcodeAtLevel 7 code)
  else if nd = 8 then .ok .Lv3
  else if nd = 9 then
    let i := digitAt code 8
    if 1 ≤ i ∧ i ≤ 4 then .ok .Lv4
    else if i = 5 then .ok .X2
    else if i = 6 then .ok .X2_5
    else if i = 7 then .ok .X4
    else .error (.InvalidMeshcodeAtLevel 9 code)
  else if nd = 10 then
    let j := digitAt code 9
    if 1 ≤ j ∧ j ≤ 4 then .ok .Lv5
    else .error (.InvalidMeshcodeAtLevel 10 code)
  else if nd = 11 then
    let k := digitAt code 10
    if 1 ≤ k ∧ k ≤ 4 then .ok .Lv6
    else .error (.InvalidMeshcodeAtLevel 11 code)
  else .error (.UnknownMeshLevelForCode code)

/-- The order claimed by the spec: the fourteen levels listed coarsest
first by nesting granularity. -/
def specLevelOrder : List MeshLevel :=
  [.Lv1, .X40, .X20, .X16, .Lv2, .X8, .X5, .X4, .X2_5, .X2, .Lv3, .Lv4, .Lv5, .Lv6]

/-- The order the code actually implements (ascending Rust enum
discriminant). -/
def discLevelOrder : List MeshLevel :=
  [.Lv1, .Lv2, .Lv3, .Lv4, .Lv5, .Lv6, .X2, .X2_5, .X4, .X5, .X8, .X16, .X20, .X40]

/-! ## Generic lemmas about the numeric embedding -/

theorem numDigitsAux_spec :
    ∀ (fuel n k : ℕ), n < fuel → 10 ^ k ≤ n → n < 10 ^ (k + 1) →
      numDigitsAux fuel n = k + 1 := by
  intro fuel
  induction fuel with
  | zero => intro n k h _ _; omega
  | succ f ih =>
    intro n k hfuel hlb hub
    unfold numDigitsAux
    by_cases h10 : n < 10
    · rw [if_pos h10]
      rcases Nat.eq_zero_or_pos k with rfl | hk
      · rfl
      · exfalso
        have h1 : (10 : ℕ) ^ 1 ≤ 10 ^ k := Nat.pow_le_pow_right (by norm_num) hk
        simp only [pow_one] at h1
        omega
    · rw [if_neg h10]
      have hk : 1 ≤ k := by
        by_contra hk0
        push_neg at hk0
        have : k = 0 := by omega
        subst this
        norm_num at hub
        exact h10 hub
      obtain ⟨m, rfl⟩ : ∃ m, k = m + 1 := ⟨k - 1, by omega⟩
      have h1 : 10 ^ m ≤ n / 10 := by
        rw [Nat.le_div_iff_mul_le (by norm_num)]
        calc 10 ^ m * 10 = 10 ^ (m + 1) := by ring
          _ ≤ n := hlb
      have h2 : n / 10 < 10 ^ (m + 1) := by
        rw [Nat.div_lt_iff_lt_mul (by norm_num)]
        calc n < 10 ^ (m + 1 + 1) := hub
          _ = 10 ^ (m + 1) * 10 := by ring
      have h3 : n / 10 < f := by
        have := Nat.div_lt_self (show 0 < n by omega) (show 1 < 10 by norm_num)
        omega
      rw [ih (n / 10) m h3 h1 h2]

theorem numDigits_eq_of_bounds (k n : ℕ) (h1 : 10 ^ k ≤ n) (h2 : n < 10 ^ (k + 1)) :
    numDigits n = k + 1 :=
  numDigitsAux_spec (n + 1) n k (by omega) h1 h2

theorem numDigits_eq_log (n : ℕ) : numDigits n = Nat.log 10 n + 1 := by
  rcases Nat.eq_zero_or_pos n with rfl | hn
  · simp [numDigits, numDigitsAux, Nat.log_zero_right]
  · exact numDigits_eq_of_bounds (Nat.log 10 n) n
      (Nat.pow_log_le_self 10 (by omega))
      (Nat.lt_pow_succ_log_self (by norm_num) n)

theorem claimedNumDigits_eq_numDigits (n : ℕ) (hn : n ≠ 0) :
    claimedNumDigits n = numDigits n := by
  rw [numDigits_eq_log, claimedNumDigits, Nat.digits_len 10 n (by norm_num) hn]

theorem slice1_last (n p : ℕ) (h : numDigits n = p + 1) :
    slice1 n p (p + 1) = n % 10 := by
  unfold slice1
  simp only [h]
  rw [if_neg (by omega)]
  have e1 : p + 1 - p = 1 := by omega
  have e2 : p + 1 - (p + 1) = 0 := by omega
  rw [e1, e2]
  simp

theorem digitAt_last (n p : ℕ) (h : claimedNumDigits n = p + 1) :
    digitAt n p = n % 10 := by
  unfold digitAt
  rw [h]
  simp

/-! Branch-evaluation lemmas for `to_meshlevel_one`. -/

theorem tml_nd4 (v : ℕ) (h : numDigits v = 4) : to_meshlevel_one v = .ok .Lv1 := by
  unfold to_meshlevel_one; simp [h]

theorem tml_nd5 (v : ℕ) (h : numDigits v = 5) : to_meshlevel_one v = .ok .X40 := by
  unfold to_meshlevel_one; simp [h]

theorem tml_nd6 (v : ℕ) (h : numDigits v = 6) : to_meshlevel_one v = .ok .Lv2 := by
  unfold to_meshlevel_one; simp [h]

theorem tml_nd8 (v : ℕ) (h : numDigits v = 8) : to_meshlevel_one v = .ok .Lv3 := by
  unfold to_meshlevel_one; simp [h]

theorem tml_nd7_g14 (v : ℕ) (h : numDigits v = 7) (h1 : 1 ≤ v % 10) (h4 : v % 10 ≤ 4) :
    to_meshlevel_one v = .ok .X5 := by
  unfold to_meshlevel_one
  simp only [h]
  rw [slice1_last v 6 h]
  norm_num [h1, h4]

theorem tml_nd7_g5 (v : ℕ) (h : numDigits v = 7) (hg : v % 10 = 5) :
    to_meshlevel_one v = .ok .X20 := by
  unfold to_meshlevel_one
  simp only [h]
  rw [slice1_last v 6 h, hg]
  norm_num

theorem tml_nd7_g6 (v : ℕ) (h : numDigits v = 7) (hg : v % 10 = 6) :
    to_meshlevel_one v = .ok .X8 := by
  unfold to_meshlevel_one
  simp only [h]
  rw [slice1_last v 6 h, hg]
  norm_num

theorem tml_nd7_g7 (v : ℕ) (h : numDigits v = 7) (hg : v % 10 = 7) :
    to_meshlevel_one v = .ok .X16 := by
  unfold to_meshlevel_one
  simp only [h]
  rw [slice1_last v 6 h, hg]
  norm_num

theorem tml_nd9_i14 (v : ℕ) (h : numDigits v = 9) (h1 : 1 ≤ v % 10) (h4 : v % 10 ≤ 4) :
    to_meshlevel_one v = .ok .Lv4 := by
  unfold to_meshlevel_one
  simp only [h]
  rw [slice1_last v 8 h]
  norm_num [h1, h4]

theorem tml_nd9_i5 (v : ℕ) (h : numDigits v = 9) (hi : v % 10 = 5) :
    to_meshlevel_one v = .ok .X2 := by
  unfold to_meshlevel_one
  simp only [h]
  rw [slice1_last v 8 h, hi]
  norm_num

theorem tml_nd9_i6 (v : ℕ) (h : numDigits v = 9) (hi : v % 10 = 6) :
    to_meshlevel_one v = .ok .X2_5 := by
  unfold to_meshlevel_one
  simp only [h]
  rw [slice1_last v 8 h, hi]
  norm_num

theorem tml_nd9_i7 (v : ℕ) (h : numDigits v = 9) (hi : v % 10 = 7) :
    to_meshlevel_one v = .ok .X4 := by
  unfold to_meshlevel_one
  simp only [h]
  rw [slice1_last v 8 h, hi]
  norm_num

theorem tml_nd10_j14 (v : ℕ) (h : numDigits v = 10) (h1 : 1 ≤ v % 10) (h4 : v % 10 ≤ 4) :
    to_meshlevel_one v = .ok .Lv5 := by
  unfold to_meshlevel_one
  simp only [h]
  rw [slice1_last v 9 h]
  norm_num [h1, h4]

theorem tml_nd11_k14 (v : ℕ) (h : numDigits v = 11) (h1 : 1 ≤ v % 10) (h4 : v % 10 ≤ 4) :
    to_meshlevel_one v = .ok .Lv6 := by
  unfold to_meshlevel_one
  simp only [h]
  rw [slice1_last v 10 h]
  norm_num [h1, h4]

/-! Rational helpers for the float embedding. -/

theorem fmod_eq_mul_fract (a b : ℚ) (hb : b ≠ 0) : fmod a b = b * Int.fract (a / b) := by
  unfold fmod Int.fract
  rw [mul_sub, mul_div_cancel₀ a hb]

theorem fmod_nonneg (a b : ℚ) (hb : 0 < b) : 0 ≤ fmod a b := by
  rw [fmod_eq_mul_fract a b hb.ne']
  exact mul_nonneg hb.le (Int.fract_nonneg _)

theorem fmod_lt (a b : ℚ) (hb : 0 < b) : fmod a b < b := by
  rw [fmod_eq_mul_fract a b hb.ne']
  calc b * Int.fract (a / b) < b * 1 :=
        mul_lt_mul_of_pos_left (Int.fract_lt_one _) hb
    _ = b := mul_one b

theorem fmod_of_nonneg_lt (a b : ℚ) (h0 : 0 ≤ a) (hab : a < b) : fmod a b = a := by
  have hb : 0 < b := lt_of_le_of_lt h0 hab
  unfold fmod
  have hz : ⌊a / b⌋ = 0 := by
    rw [Int.floor_eq_zero_iff]
    exact ⟨div_nonneg h0 hb.le, (div_lt_one hb).mpr hab⟩
  rw [hz]
  push_cast
  ring

theorem fmod_shift (a b : ℚ) (hb : 0 < b) (h1 : b ≤ a) (h2 : a < 2 * b) :
    fmod a b = a - b := by
  unfold fmod
  have hz : ⌊a / b⌋ = 1 := by
    rw [Int.floor_eq_iff]
    constructor
    · push_cast
      rw [le_div_iff₀ hb]
      linarith
    · push_cast
      rw [div_lt_iff₀ hb]
      linarith
  rw [hz]
  push_cast
  ring

theorem ratToU64_lt (x : ℚ) (n : ℕ) (hn : 0 < n) (h : x < n) : ratToU64 x < n := by
  unfold ratToU64
  have hf : ⌊x⌋ < (n : ℤ) := by
    rw [Int.floor_lt]
    exact_mod_cast h
  omega

theorem ratToU64_ge (x : ℚ) (m : ℕ) (h : (m : ℚ) ≤ x) : m ≤ ratToU64 x := by
  unfold ratToU64
  have hf : (m : ℤ) ≤ ⌊x⌋ := by
    rw [Int.le_floor]
    exact_mod_cast h
  omega

theorem quot_lt (x u : ℚ) (k : ℕ) (hu : 0 < u) (hk : 0 < k) (hx : x < (k : ℚ) * u) :
    ratToU64 (x / u) < k := by
  apply ratToU64_lt _ _ hk
  rw [div_lt_iff₀ hu]
  exact hx

theorem quot_ge (x u : ℚ) (m : ℕ) (hu : 0 < u) (hx : (m : ℚ) * u ≤ x) :
    m ≤ ratToU64 (x / u) := by
  apply ratToU64_ge
  rw [le_div_iff₀ hu]
  exact hx

theorem fmod_quot_lt (a b u : ℚ) (k : ℕ) (hb : 0 < b) (hu : 0 < u) (hk : 0 < k)
    (hbk : b ≤ (k : ℚ) * u) : ratToU64 (fmod a b / u) < k :=
  quot_lt _ _ _ hu hk (lt_of_lt_of_le (fmod_lt a b hb) hbk)

/-! Value bounds of each encoder on the amended input domain
`20/3 ≤ lat < 6666/100`, `100 ≤ lon < 180` (so that the first-mesh pair
of digits is in `[10, 99]` and the code has its full digit count). -/

theorem mc_lv1_bounds (lat lon : ℚ) (h1 : 20 / 3 ≤ lat) (h2 : lat < 6666 / 100)
    (h3 : 100 ≤ lon) (h4 : lon < 180) :
    1000 ≤ (meshcode_lv1 lat lon).value ∧ (meshcode_lv1 lat lon).value < 10000 := by
  have hab1 : 10 ≤ ratToU64 (lat / UNIT_LAT_LV1) := by
    apply quot_ge _ _ _ (by norm_num [UNIT_LAT_LV1])
    rw [UNIT_LAT_LV1]
    push_cast
    linarith
  have hab2 : ratToU64 (lat / UNIT_LAT_LV1) < 100 := by
    apply quot_lt _ _ _ (by norm_num [UNIT_LAT_LV1]) (by norm_num)
    rw [UNIT_LAT_LV1]
    push_cast
    linarith
  have hcd : ratToU64 (fmod lon 100 / UNIT_LON_LV1) < 80 := by
    apply quot_lt _ _ _ (by norm_num [UNIT_LON_LV1]) (by norm_num)
    rw [fmod_shift lon 100 (by norm_num) h3 (by linarith), UNIT_LON_LV1]
    push_cast
    linarith
  simp only [meshcode_lv1]
  omega

theorem mc_40000_bounds (lat lon : ℚ) (h1 : 20 / 3 ≤ lat) (h2 : lat < 6666 / 100)
    (h3 : 100 ≤ lon) (h4 : lon < 180) :
    10000 ≤ (meshcode_40000 lat lon).value ∧ (meshcode_40000 lat lon).value < 100000 := by
  obtain ⟨hb1, hb2⟩ := mc_lv1_bounds lat lon h1 h2 h3 h4
  have he1 : ratToU64 (fmod lat UNIT_LAT_LV1 / UNIT_LAT_40000) < 2 := by
    apply fmod_quot_lt <;> norm_num [UNIT_LAT_LV1, UNIT_LAT_40000]
  have he2 : ratToU64 (fmod (fmod lon 100) UNIT_LON_LV1 / UNIT_LON_40000) < 2 := by
    apply fmod_quot_lt <;> norm_num [UNIT_LON_LV1, UNIT_LON_40000]
  simp only [meshcode_40000]
  omega

theorem mc_20000_bounds (lat lon : ℚ) (h1 : 20 / 3 ≤ lat) (h2 : lat < 6666 / 100)
    (h3 : 100 ≤ lon) (h4 : lon < 180) :
    1000000 ≤ (meshcode_20000 lat lon).value ∧
      (meshcode_20000 lat lon).value < 10000000 ∧
      (meshcode_20000 lat lon).value % 10 = 5 := by
  obtain ⟨hb1, hb2⟩ := mc_40000_bounds lat lon h1 h2 h3 h4
  have hf1 : ratToU64 (fmod (fmod lat UNIT_LAT_LV1) UNIT_LAT_40000 / UNIT_LAT_20000) < 2 := by
    apply fmod_quot_lt <;> norm_num [UNIT_LAT_LV1, UNIT_LAT_40000, UNIT_LAT_20000]
  have hf2 : ratToU64
      (fmod (fmod (fmod lon 100) UNIT_LON_LV1) UNIT_LON_40000 / UNIT_LON_20000) < 2 := by
    apply fmod_quot_lt <;> norm_num [UNIT_LON_LV1, UNIT_LON_40000, UNIT_LON_20000]
  simp only [meshcode_20000]
  omega

theorem mc_16000_bounds (lat lon : ℚ) (h1 : 20 / 3 ≤ lat) (h2 : lat < 6666 / 100)
    (h3 : 100 ≤ lon) (h4 : lon < 180) :
    1000000 ≤ (meshcode_16000 lat lon).value ∧
      (meshcode_16000 lat lon).value < 10000000 ∧
      (meshcode_16000 lat lon).value % 10 = 7 := by
  obtain ⟨hb1, hb2⟩ := mc_lv1_bounds lat lon h1 h2 h3 h4
  have he : ratToU64 (fmod lat UNIT_LAT_LV1 / UNIT_LAT_16000) < 5 := by
    apply fmod_quot_lt <;> norm_num [UNIT_LAT_LV1, UNIT_LAT_16000]
  have hf : ratToU64 (fmod (fmod lon 100) UNIT_LON_LV1 / UNIT_LON_16000) < 5 := by
    apply fmod_quot_lt <;> norm_num [UNIT_LON_LV1, UNIT_LON_16000]
  simp only [meshcode_16000]
  omega

theorem mc_lv2_bounds (lat lon : ℚ) (h1 : 20 / 3 ≤ lat) (h2 : lat < 6666 / 100)
    (h3 : 100 ≤ lon) (h4 : lon < 180) :
    100000 ≤ (meshcode_lv2 lat lon).value ∧ (meshcode_lv2 lat lon).value < 1000000 := by
  obtain ⟨hb1, hb2⟩ := mc_lv1_bounds lat lon h1 h2 h3 h4
  have he : ratToU64 (fmod lat UNIT_LAT_LV1 / UNIT_LAT_LV2) < 8 := by
    apply fmod_quot_lt <;> norm_num [UNIT_LAT_LV1, UNIT_LAT_LV2]
  have hf : ratToU64 (fmod (fmod lon 100) UNIT_LON_LV1 / UNIT_LON_LV2) < 8 := by
    apply fmod_quot_lt <;> norm_num [UNIT_LON_LV1, UNIT_LON_LV2]
  simp only [meshcode_lv2]
  omega

theorem mc_8000_bounds (lat lon : ℚ) (h1 : 20 / 3 ≤ lat) (h2 : lat < 6666 / 100)
    (h3 : 100 ≤ lon) (h4 : lon < 180) :
    1000000 ≤ (meshcode_8000 lat lon).value ∧
      (meshcode_8000 lat lon).value < 10000000 ∧
      (meshcode_8000 lat lon).value % 10 = 6 := by
  obtain ⟨hb1, hb2⟩ := mc_lv1_bounds lat lon h1 h2 h3 h4
  have he : ratToU64 (fmod lat UNIT_LAT_LV1 / UNIT_LAT_8000) < 10 := by
    apply fmod_quot_lt <;> norm_num [UNIT_LAT_LV1, UNIT_LAT_8000]
  have hf : ratToU64 (fmod (fmod lon 100) UNIT_LON_LV1 / UNIT_LON_8000) < 10 := by
    apply fmod_quot_lt <;> norm_num [UNIT_LON_LV1, UNIT_LON_8000]
  simp only [meshcode_8000]
  omega

theorem mc_5000_bounds (lat lon : ℚ) (h1 : 20 / 3 ≤ lat) (h2 : lat < 6666 / 100)
    (h3 : 100 ≤ lon) (h4 : lon < 180) :
    1000000 ≤ (meshcode_5000 lat lon).value ∧
      (meshcode_5000 lat lon).value < 10000000 ∧
      1 ≤ (meshcode_5000 lat lon).value % 10 ∧
      (meshcode_5000 lat lon).value % 10 ≤ 4 := by
  obtain ⟨hb1, hb2⟩ := mc_lv2_bounds lat lon h1 h2 h3 h4
  have hg1 : ratToU64 (fmod (fmod lat UNIT_LAT_LV1) UNIT_LAT_LV2 / UNIT_LAT_5000) < 2 := by
    apply fmod_quot_lt <;> norm_num [UNIT_LAT_LV1, UNIT_LAT_LV2, UNIT_LAT_5000]
  have hg2 : ratToU64
      (fmod (fmod (fmod lon 100) UNIT_LON_LV1) UNIT_LON_LV2 / UNIT_LON_5000) < 2 := by
    apply fmod_quot_lt <;> norm_num [UNIT_LON_LV1, UNIT_LON_LV2, UNIT_LON_5000]
  simp only [meshcode_5000]
  omega

theorem mc_4000_bounds (lat lon : ℚ) (h1 : 20 / 3 ≤ lat) (h2 : lat < 6666 / 100)
    (h3 : 100 ≤ lon) (h4 : lon < 180) :
    100000000 ≤ (meshcode_4000 lat lon).value ∧
      (meshcode_4000 lat lon).value < 1000000000 ∧
      (meshcode_4000 lat lon).value % 10 = 7 := by
  obtain ⟨hb1, hb2, _⟩ := mc_8000_bounds lat lon h1 h2 h3 h4
  have hh1 : ratToU64 (fmod (fmod lat UNIT_LAT_LV1) UNIT_LAT_8000 / UNIT_LAT_4000) < 2 := by
    apply fmod_quot_lt <;> norm_num [UNIT_LAT_LV1, UNIT_LAT_8000, UNIT_LAT_4000]
  have hh2 : ratToU64
      (fmod (fmod (fmod lon 100) UNIT_LON_LV1) UNIT_LON_8000 / UNIT_LON_4000) < 2 := by
    apply fmod_quot_lt <;> norm_num [UNIT_LON_LV1, UNIT_LON_8000, UNIT_LON_4000]
  simp only [meshcode_4000]
  omega

theorem mc_2500_bounds (lat lon : ℚ) (h1 : 20 / 3 ≤ lat) (h2 : lat < 6666 / 100)
    (h3 : 100 ≤ lon) (h4 : lon < 180) :
    100000000 ≤ (meshcode_2500 lat lon).value ∧
      (meshcode_2500 lat lon).value < 1000000000 ∧
      (meshcode_2500 lat lon).value % 10 = 6 := by
  obtain ⟨hb1, hb2, _, _⟩ := mc_5000_bounds lat lon h1 h2 h3 h4
  have hh1 : ratToU64
      (fmod (fmod (fmod lat UNIT_LAT_LV1) UNIT_LAT_LV2) UNIT_LAT_5000 / UNIT_LAT_2500) < 2 := by
    apply fmod_quot_lt <;> norm_num [UNIT_LAT_LV1, UNIT_LAT_LV2, UNIT_LAT_5000, UNIT_LAT_2500]
  have hh2 : ratToU64
      (fmod (fmod (fmod (fmod lon 100) UNIT_LON_LV1) UNIT_LON_LV2) UNIT_LON_5000
        / UNIT_LON_2500) < 2 := by
    apply fmod_quot_lt <;> norm_num [UNIT_LON_LV1, UNIT_LON_LV2, UNIT_LON_5000, UNIT_LON_2500]
  simp only [meshcode_2500]
  omega

theorem mc_2000_bounds (lat lon : ℚ) (h1 : 20 / 3 ≤ lat) (h2 : lat < 6666 / 100)
    (h3 : 100 ≤ lon) (h4 : lon < 180) :
    100000000 ≤ (meshcode_2000 lat lon).value ∧
      (meshcode_2000 lat lon).value < 1000000000 ∧
      (meshcode_2000 lat lon).value % 10 = 5 := by
  obtain ⟨hb1, hb2⟩ := mc_lv2_bounds lat lon h1 h2 h3 h4
  have hg : ratToU64 (fmod (fmod lat UNIT_LAT_LV1) UNIT_LAT_LV2 / UNIT_LAT_2000) < 5 := by
    apply fmod_quot_lt <;> norm_num [UNIT_LAT_LV1, UNIT_LAT_LV2, UNIT_LAT_2000]
  have hh : ratToU64
      (fmod (fmod (fmod lon 100) UNIT_LON_LV1) UNIT_LON_LV2 / UNIT_LON_2000) < 5 := by
    apply fmod_quot_lt <;> norm_num [UNIT_LON_LV1, UNIT_LON_LV2, UNIT_LON_2000]
  simp only [meshcode_2000]
  omega

theorem mc_lv3_bounds (lat lon : ℚ) (h1 : 20 / 3 ≤ lat) (h2 : lat < 6666 / 100)
    (h3 : 100 ≤ lon) (h4 : lon < 180) :
    10000000 ≤ (meshcode_lv3 lat lon).value ∧ (meshcode_lv3 lat lon).value < 100000000 := by
  obtain ⟨hb1, hb2⟩ := mc_lv2_bounds lat lon h1 h2 h3 h4
  have hg : ratToU64 (fmod (fmod lat UNIT_LAT_LV1) UNIT_LAT_LV2 / UNIT_LAT_LV3) < 10 := by
    apply fmod_quot_lt <;> norm_num [UNIT_LAT_LV1, UNIT_LAT_LV2, UNIT_LAT_LV3]
  have hh : ratToU64
      (fmod (fmod (fmod lon 100) UNIT_LON_LV1) UNIT_LON_LV2 / UNIT_LON_LV3) < 10 := by
    apply fmod_quot_lt <;> norm_num [UNIT_LON_LV1, UNIT_LON_LV2, UNIT_LON_LV3]
  simp only [meshcode_lv3]
  omega

theorem mc_lv4_bounds (lat lon : ℚ) (h1 : 20 / 3 ≤ lat) (h2 : lat < 6666 / 100)
    (h3 : 100 ≤ lon) (h4 : lon < 180) :
    100000000 ≤ (meshcode_lv4 lat lon).value ∧
      (meshcode_lv4 lat lon).value < 1000000000 ∧
      1 ≤ (meshcode_lv4 lat lon).value % 10 ∧
      (meshcode_lv4 lat lon).value % 10 ≤ 4 := by
  obtain ⟨hb1, hb2⟩ := mc_lv3_bounds lat lon h1 h2 h3 h4
  have hi1 : ratToU64
      (fmod (fmod (fmod lat UNIT_LAT_LV1) UNIT_LAT_LV2) UNIT_LAT_LV3 / UNIT_LAT_LV4) < 2 := by
    apply fmod_quot_lt <;> norm_num [UNIT_LAT_LV1, UNIT_LAT_LV2, UNIT_LAT_LV3, UNIT_LAT_LV4]
  have hi2 : ratToU64
      (fmod (fmod (fmod (fmod lon 100) UNIT_LON_LV1) UNIT_LON_LV2) UNIT_LON_LV3
        / UNIT_LON_LV4) < 2 := by
    apply fmod_quot_lt <;> norm_num [UNIT_LON_LV1, UNIT_LON_LV2, UNIT_LON_LV3, UNIT_LON_LV4]
  simp only [meshcode_lv4]
  omega

theorem mc_lv5_bounds (lat lon : ℚ) (h1 : 20 / 3 ≤ lat) (h2 : lat < 6666 / 100)
    (h3 : 100 ≤ lon) (h4 : lon < 180) :
    1000000000 ≤ (meshcode_lv5 lat lon).value ∧
      (meshcode_lv5 lat lon).value < 10000000000 ∧
      1 ≤ (meshcode_lv5 lat lon).value % 10 ∧
      (meshcode_lv5 lat lon).value % 10 ≤ 4 := by
  obtain ⟨hb1, hb2, _, _⟩ := mc_lv4_bounds lat lon h1 h2 h3 h4
  have hj1 : ratToU64
      (fmod (fmod (fmod (fmod lat UNIT_LAT_LV1) UNIT_LAT_LV2) UNIT_LAT_LV3) UNIT_LAT_LV4
        / UNIT_LAT_LV5) < 2 := by
    apply fmod_quot_lt <;>
      norm_num [UNIT_LAT_LV1, UNIT_LAT_LV2, UNIT_LAT_LV3, UNIT_LAT_LV4, UNIT_LAT_LV5]
  have hj2 : ratToU64
      (fmod (fmod (fmod (fmod (fmod lon 100) UNIT_LON_LV1) UNIT_LON_LV2) UNIT_LON_LV3)
        UNIT_LON_LV4 / UNIT_LON_LV5) < 2 := by
    apply fmod_quot_lt <;>
      norm_num [UNIT_LON_LV1, UNIT_LON_LV2, UNIT_LON_LV3, UNIT_LON_LV4, UNIT_LON_LV5]
  simp only [meshcode_lv5]
  omega

theorem mc_lv6_bounds (lat lon : ℚ) (h1 : 20 / 3 ≤ lat) (h2 : lat < 6666 / 100)
    (h3 : 100 ≤ lon) (h4 : lon < 180) :
    10000000000 ≤ (meshcode_lv6 lat lon).value ∧
      (meshcode_lv6 lat lon).value < 100000000000 ∧
      1 ≤ (meshcode_lv6 lat lon).value % 10 ∧
      (meshcode_lv6 lat lon).value % 10 ≤ 4 := by
  obtain ⟨hb1, hb2, _, _⟩ := mc_lv5_bounds lat lon h1 h2 h3 h4
  have hk1 : ratToU64
      (fmod (fmod (fmod (fmod (fmod lat UNIT_LAT_LV1) UNIT_LAT_LV2) UNIT_LAT_LV3)
        UNIT_LAT_LV4) UNIT_LAT_LV5 / UNIT_LAT_LV6) < 2 := by
    apply fmod_quot_lt <;>
      norm_num [UNIT_LAT_LV1, UNIT_LAT_LV2, UNIT_LAT_LV3, UNIT_LAT_LV4, UNIT_LAT_LV5,
        UNIT_LAT_LV6]
  have hk2 : ratToU64
      (fmod (fmod (fmod (fmod (fmod (fmod lon 100) UNIT_LON_LV1) UNIT_LON_LV2)
        UNIT_LON_LV3) UNIT_LON_LV4) UNIT_LON_LV5 / UNIT_LON_LV6) < 2 := by
    apply fmod_quot_lt <;>
      norm_num [UNIT_LON_LV1, UNIT_LON_LV2, UNIT_LON_LV3, UNIT_LON_LV4, UNIT_LON_LV5,
        UNIT_LON_LV6]
  simp only [meshcode_lv6]
  omega

/-- Core of the encode/infer round trip: on the restricted latitude
domain every encoder produces a positive value whose level is inferred
back exactly. -/
theorem roundtrip_core (lat lon : ℚ) (L : MeshLevel)
    (h1 : 20 / 3 ≤ lat) (h2 : lat < 6666 / 100) (h3 : 100 ≤ lon) (h4 : lon < 180) :
    0 < (meshcodeAt L lat lon).value ∧
      to_meshlevel_one (meshcodeAt L lat lon).value = .ok L := by
  cases L with
  | Lv1 =>
    simp only [meshcodeAt]
    obtain ⟨hb1, hb2⟩ := mc_lv1_bounds lat lon h1 h2 h3 h4
    exact ⟨by omega,
      tml_nd4 _ (numDigits_eq_of_bounds 3 _ (by simpa using hb1) (by simpa using hb2))⟩
  | X40 =>
    simp only [meshcodeAt]
    obtain ⟨hb1, hb2⟩ := mc_40000_bounds lat lon h1 h2 h3 h4
    exact ⟨by omega,
      tml_nd5 _ (numDigits_eq_of_bounds 4 _ (by simpa using hb1) (by simpa using hb2))⟩
  | X20 =>
    simp only [meshcodeAt]
    obtain ⟨hb1, hb2, hm⟩ := mc_20000_bounds lat lon h1 h2 h3 h4
    exact ⟨by omega,
      tml_nd7_g5 _ (numDigits_eq_of_bounds 6 _ (by simpa using hb1) (by simpa using hb2)) hm⟩
  | X16 =>
    simp only [meshcodeAt]
    obtain ⟨hb1, hb2, hm⟩ := mc_16000_bounds lat lon h1 h2 h3 h4
    exact ⟨by omega,
      tml_nd7_g7 _ (numDigits_eq_of_bounds 6 _ (by simpa using hb1) (by simpa using hb2)) hm⟩
  | Lv2 =>
    simp only [meshcodeAt]
    obtain ⟨hb1, hb2⟩ := mc_lv2_bounds lat lon h1 h2 h3 h4
    exact ⟨by omega,
      tml_nd6 _ (numDigits_eq_of_bounds 5 _ (by simpa using hb1) (by simpa using hb2))⟩
  | X8 =>
    simp only [meshcodeAt]
    obtain ⟨hb1, hb2, hm⟩ := mc_8000_bounds lat lon h1 h2 h3 h4
    exact ⟨by omega,
      tml_nd7_g6 _ (numDigits_eq_of_bounds 6 _ (by simpa using hb1) (by simpa using hb2)) hm⟩
  | X5 =>
    simp only [meshcodeAt]
    obtain ⟨hb1, hb2, hm1, hm4⟩ := mc_5000_bounds lat lon h1 h2 h3 h4
    exact ⟨by omega,
      tml_nd7_g14 _ (numDigits_eq_of_bounds 6 _ (by simpa using hb1) (by simpa using hb2))
        hm1 hm4⟩
  | X4 =>
    simp only [meshcodeAt]
    obtain ⟨hb1, hb2, hm⟩ := mc_4000_bounds lat lon h1 h2 h3 h4
    exact ⟨by omega,
      tml_nd9_i7 _ (numDigits_eq_of_bounds 8 _ (by simpa using hb1) (by simpa using hb2)) hm⟩
  | X2_5 =>
    simp only [meshcodeAt]
    obtain ⟨hb1, hb2, hm⟩ := mc_2500_bounds lat lon h1 h2 h3 h4
    exact ⟨by omega,
      tml_nd9_i6 _ (numDigits_eq_of_bounds 8 _ (by simpa using hb1) (by simpa using hb2)) hm⟩
  | X2 =>
    simp only [meshcodeAt]
    obtain ⟨hb1, hb2, hm⟩ := mc_2000_bounds lat lon h1 h2 h3 h4
    exact ⟨by omega,
      tml_nd9_i5 _ (numDigits_eq_of_bounds 8 _ (by simpa using hb1) (by simpa using hb2)) hm⟩
  | Lv3 =>
    simp only [meshcodeAt]
    obtain ⟨hb1, hb2⟩ := mc_lv3_bounds lat lon h1 h2 h3 h4
    exact ⟨by omega,
      tml_nd8 _ (numDigits_eq_of_bounds 7 _ (by simpa using hb1) (by simpa using hb2))⟩
  | Lv4 =>
    simp only [meshcodeAt]
    obtain ⟨hb1, hb2, hm1, hm4⟩ := mc_lv4_bounds lat lon h1 h2 h3 h4
    exact ⟨by omega,
      tml_nd9_i14 _ (numDigits_eq_of_bounds 8 _ (by simpa using hb1) (by simpa using hb2))
        hm1 hm4⟩
  | Lv5 =>
    simp only [meshcodeAt]
    obtain ⟨hb1, hb2, hm1, hm4⟩ := mc_lv5_bounds lat lon h1 h2 h3 h4
    exact ⟨by omega,
      tml_nd10_j14 _ (numDigits_eq_of_bounds 9 _ (by simpa using hb1) (by simpa using hb2))
        hm1 hm4⟩
  | Lv6 =>
    simp only [meshcodeAt]
    obtain ⟨hb1, hb2, hm1, hm4⟩ := mc_lv6_bounds lat lon h1 h2 h3 h4
    exact ⟨by omega,
      tml_nd11_k14 _ (numDigits_eq_of_bounds 10 _ (by simpa using hb1) (by simpa using hb2))
        hm1 hm4⟩

/-- `to_meshcode` on one valid coordinate pair. -/
theorem to_meshcode_singleton (lat lon : ℚ) (L : MeshLevel)
    (hl1 : 0 ≤ lat) (hl2 : lat < 6666 / 100) (hn1 : 100 ≤ lon) (hn2 : lon < 180) :
    to_meshcode [lat] [lon] L = .ok [meshcodeAt L lat lon] := by
  unfold to_meshcode
  have hfl : List.find? latInvalid [lat] = none := by
    rw [List.find?_eq_none]
    intro x hx
    rw [List.mem_singleton] at hx
    subst hx
    simp [latInvalid, hl1, hl2]
  have hfn : List.find? lonInvalid [lon] = none := by
    rw [List.find?_eq_none]
    intro x hx
    rw [List.mem_singleton] at hx
    subst hx
    simp [lonInvalid, hn1, hn2]
  rw [hfl, hfn]
  rfl

/-- `to_meshlevel` on one positive code. -/
theorem to_meshlevel_singleton (v : ℕ) (hv : 0 < v) (L : MeshLevel)
    (h : to_meshlevel_one v = .ok L) : to_meshlevel [v] = .ok [L] := by
  unfold to_meshlevel
  rw [if_neg (by simp; omega)]
  simp [levelsOf, h]

/-- C1 (counterexample): at `lat = 0`, `lon = 100` (both inside the
claimed input domain), `to_meshcode` at Lv1 returns code 0, and level
inference rejects 0 instead of returning Lv1. -/
theorem claim_C1_counterexample :
    to_meshcode [0] [100] .Lv1 = .ok [⟨0, .Lv1⟩] ∧
      to_meshlevel [0] = .error (.UnknownMeshLevelForCode 0) := by
  constructor
  · rw [to_meshcode_singleton 0 100 .Lv1 le_rfl (by norm_num) le_rfl (by norm_num)]
    have hm : meshcodeAt .Lv1 0 100 = (⟨0, .Lv1⟩ : MeshCode) := by
      simp only [meshcodeAt, meshcode_lv1]
      rw [fmod_shift 100 100 (by norm_num) le_rfl (by norm_num)]
      norm_num [ratToU64, UNIT_LAT_LV1, UNIT_LON_LV1]
    rw [hm]
  · decide

/-- C1 (amended): for every latitude in `[20/3, 66.66)` (so that the
leading Lv1 digit pair is at least 10 — the counterexample shows the
claim fails below `20/3`), every longitude in `[100, 180)`, and every
level `L`, the code produced by `to_meshcode` is recognized by
`to_meshlevel` as exactly `L`. -/
theorem claim_C1_roundtrip_amended (lat lon : ℚ) (L : MeshLevel)
    (h1 : 20 / 3 ≤ lat) (h2 : lat < 6666 / 100) (h3 : 100 ≤ lon) (h4 : lon < 180) :
    ∃ c : MeshCode, to_meshcode [lat] [lon] L = .ok [c] ∧ c.level = L ∧
      to_meshlevel [c.value] = .ok [L] := by
  obtain ⟨hpos, hlevel⟩ := roundtrip_core lat lon L h1 h2 h3 h4
  refine ⟨meshcodeAt L lat lon, ?_, ?_, ?_⟩
  · exact to_meshcode_singleton lat lon L (by linarith) h2 h3 h4
  · cases L <;> rfl
  · exact to_meshlevel_singleton _ hpos L hlevel

/-- Witness for C1 (amended) at the Tokyo Tower point and level Lv6. -/
theorem claim_C1_witness :
    ∃ c : MeshCode,
      to_meshcode [35658581 / 1000000] [139745433 / 1000000] .Lv6 = .ok [c] ∧
      c.level = .Lv6 ∧ to_meshlevel [c.value] = .ok [.Lv6] :=
  claim_C1_roundtrip_amended (35658581 / 1000000) (139745433 / 1000000) .Lv6
    (by norm_num) (by norm_num) (by norm_num) (by norm_num)

/-- The per-element inference agrees with the claim-side description
(mathematical digit count and digit positions). -/
theorem tml_eq_claimedLevel (code : ℕ) : to_meshlevel_one code = claimedLevel code := by
  rcases eq_or_ne code 0 with rfl | hc
  · simp [to_meshlevel_one, claimedLevel, claimedNumDigits, numDigits, numDigitsAux]
  · have hnd : claimedNumDigits code = numDigits code := claimedNumDigits_eq_numDigits code hc
    unfold to_meshlevel_one claimedLevel
    rw [hnd]
    by_cases h7 : numDigits code = 7
    · simp only [h7]
      rw [slice1_last code 6 h7, digitAt_last code 6 (hnd.trans h7)]
      norm_num
    · by_cases h9 : numDigits code = 9
      · simp only [h9]
        rw [slice1_last code 8 h9, digitAt_last code 8 (hnd.trans h9)]
        norm_num
      · by_cases h10 : numDigits code = 10
        · simp only [h10]
          rw [slice1_last code 9 h10, digitAt_last code 9 (hnd.trans h10)]
          norm_num
        · by_cases h11 : numDigits code = 11
          · simp only [h11]
            rw [slice1_last code 10 h11, digitAt_last code 10 (hnd.trans h11)]
            norm_num
          · simp only [h7, h9, h10, h11, if_false]

theorem to_meshlevel_of_zero_mem (codes : List ℕ) (h : 0 ∈ codes) :
    to_meshlevel codes = .error (.UnknownMeshLevelForCode 0) := by
  unfold to_meshlevel
  rw [if_pos]
  simp only [List.any_eq_true]
  exact ⟨0, h, by simp⟩

theorem to_meshlevel_of_zero_not_mem (codes : List ℕ) (h : 0 ∉ codes) :
    to_meshlevel codes = levelsOf codes := by
  unfold to_meshlevel
  rw [if_neg]
  simp only [List.any_eq_true]
  rintro ⟨c, hcmem, hbeq⟩
  simp only [beq_iff_eq] at hbeq
  exact h (hbeq ▸ hcmem)

theorem levelsOf_append_error (xs : List ℕ) (c : ℕ) (ys : List ℕ) (e : JismeshError)
    (hxs : ∀ x ∈ xs, ∃ l, to_meshlevel_one x = .ok l)
    (hc : to_meshlevel_one c = .error e) :
    levelsOf (xs ++ c :: ys) = .error e := by
  induction xs with
  | nil => simp [levelsOf, hc]
  | cons x xs ih =>
    obtain ⟨l, hl⟩ := hxs x (List.mem_cons_self x xs)
    have hrest := ih fun y hy => hxs y (List.mem_cons_of_mem x hy)
    simp [levelsOf, hl, hrest]

/-- C2 (counterexample): in the batch `[9999999, 0]` the first offending
element is `9999999` (its own failure is `InvalidMeshcodeAtLevel 7`),
but the batch fails with the zero scan's `UnknownMeshLevelForCode 0`. -/
theorem claim_C2_counterexample :
    to_meshlevel [9999999, 0] = .error (.UnknownMeshLevelForCode 0) ∧
      to_meshlevel_one 9999999 = .error (.InvalidMeshcodeAtLevel 7 9999999) := by
  decide

/-- C2 (amended): the per-element rules are exactly as the claim states
(proved against the spec-side `claimedLevel`); the batch is first
scanned for a zero (failing with `UnknownMeshLevelForCode 0` even when a
non-zero offender comes earlier), and otherwise the elementwise loop
fails on the first offending element. -/
theorem claim_C2_level_inference_amended :
    (∀ code, to_meshlevel_one code = claimedLevel code) ∧
    (∀ codes : List ℕ, 0 ∈ codes →
      to_meshlevel codes = .error (.UnknownMeshLevelForCode 0)) ∧
    (∀ codes : List ℕ, 0 ∉ codes → to_meshlevel codes = levelsOf codes) ∧
    (∀ (xs : List ℕ) (c : ℕ) (ys : List ℕ) (e : JismeshError),
      (∀ x ∈ xs, ∃ l, to_meshlevel_one x = .ok l) →
      to_meshlevel_one c = .error e →
      levelsOf (xs ++ c :: ys) = .error e) :=
  ⟨tml_eq_claimedLevel, to_meshlevel_of_zero_mem, to_meshlevel_of_zero_not_mem,
    levelsOf_append_error⟩

/-- Witness for C2 (amended): a batch whose first offender (`5`, digit
count 1) determines the batch error. -/
theorem claim_C2_witness :
    levelsOf [5339, 5, 533935] = .error (.UnknownMeshLevelForCode 5) :=
  claim_C2_level_inference_amended.2.2.2 [5339] 5 [533935]
    (.UnknownMeshLevelForCode 5) (by decide) (by decide)

/-- C3 (counterexample): X40 precedes X20 in the claimed
coarsest-first list and is strictly coarser in both axes, yet the
implemented (derived, discriminant-based) comparison makes X40 the
larger of the two, refuting the claimed equivalence at this pair. -/
theorem claim_C3_counterexample :
    (specLevelOrder.indexOf MeshLevel.X40 < specLevelOrder.indexOf MeshLevel.X20 ∧
      unit_lat .X20 < unit_lat .X40 ∧ unit_lon .X20 < unit_lon .X40) ∧
    ¬ levelLt .X40 .X20 ∧ levelLt .X20 .X40 := by
  refine ⟨⟨by decide, ?_, ?_⟩, by decide, by decide⟩
  · norm_num [unit_lat, unit_lat_lon, UNIT_LAT_40000, UNIT_LAT_20000, UNIT_LAT_LV1]
  · norm_num [unit_lon, unit_lat_lon, UNIT_LON_40000, UNIT_LON_20000, UNIT_LON_LV1]

/-- C3 (amended): the comparison order on `MeshLevel` is the ascending
discriminant order `Lv1 < Lv2 < Lv3 < Lv4 < Lv5 < Lv6 < X2 < X2.5 < X4
< X5 < X8 < X16 < X20 < X40`; it agrees with the claimed granularity
order on the pure levels but not on the multiplier levels. -/
theorem claim_C3_order_amended :
    ∀ a b : MeshLevel,
      levelLt a b ↔ discLevelOrder.indexOf a < discLevelOrder.indexOf b := by
  decide

/-- C4 (counterexample): lowering an X20 code to the coarser multiplier
level X40 fails with `InvalidMeshLevelForLowerLevel` (the derived order
treats X40 as larger), not with the claimed
`UnsupportedMeshLevelConversion`. -/
theorem claim_C4_counterexample :
    lower_level ⟨5339235, .X20⟩ .X40 =
      .error (.InvalidMeshLevelForLowerLevel .X20 .X40) ∧
    lower_level ⟨5339235, .X20⟩ .X40 ≠
      .error (.UnsupportedMeshLevelConversion .X20 .X40) := by
  decide

/-- C4 (amended): `lower_level` first fails with
`InvalidMeshLevelForLowerLevel` whenever the target is greater in the
discriminant order (not: whenever it is finer); the remaining behaviour
is as claimed — equal levels return the code unchanged, the pure chain
divides by 100 per hop (10000 for Lv3 to Lv1), and every other pair
fails with `UnsupportedMeshLevelConversion`. -/
theorem claim_C4_lower_level_amended (v : ℕ) (a b : MeshLevel) :
    (levelLt a b → lower_level ⟨v, a⟩ b = .error (.InvalidMeshLevelForLowerLevel a b)) ∧
    lower_level ⟨v, .Lv3⟩ .Lv2 = .ok ⟨v / 100, .Lv2⟩ ∧
    lower_level ⟨v, .Lv2⟩ .Lv1 = .ok ⟨v / 100, .Lv1⟩ ∧
    lower_level ⟨v, .Lv3⟩ .Lv1 = .ok ⟨v / 10000, .Lv1⟩ ∧
    lower_level ⟨v, a⟩ a = .ok ⟨v, a⟩ ∧
    (¬ levelLt a b → a ≠ b →
      (a, b) ≠ (.Lv3, .Lv2) → (a, b) ≠ (.Lv2, .Lv1) → (a, b) ≠ (.Lv3, .Lv1) →
      lower_level ⟨v, a⟩ b = .error (.UnsupportedMeshLevelConversion a b)) := by
  refine ⟨?_, ?_, ?_, ?_, ?_, ?_⟩
  · intro h
    simp [lower_level, h]
  · simp [lower_level, levelLt, levelDiscriminant]
  · simp [lower_level, levelLt, levelDiscriminant]
  · simp [lower_level, levelLt, levelDiscriminant]
  · simp [lower_level, levelLt]
  · intro h1 h2 h3 h4 h5
    cases a <;> cases b <;> simp_all [lower_level, levelLt, levelDiscriminant]

/-- Witness for C4 (amended): lowering Lv1 to the finer Lv2 fails with
`InvalidMeshLevelForLowerLevel`. -/
theorem claim_C4_witness :
    lower_level ⟨5339, .Lv1⟩ .Lv2 = .error (.InvalidMeshLevelForLowerLevel .Lv1 .Lv2) :=
  (claim_C4_lower_level_amended 5339 .Lv1 .Lv2).1 (by decide)

/-- C9: for every mesh code of any level, `lower_level` to its own level
succeeds and returns the code unchanged. -/
theorem claim_C9_lower_level_idempotent (c : MeshCode) :
    lower_level c c.level = .ok c := by
  obtain ⟨v, l⟩ := c
  simp [lower_level, levelLt]

theorem latInvalid_iff (v : ℚ) : latInvalid v = true ↔ ¬ (0 ≤ v ∧ v < 6666 / 100) := by
  constructor
  · intro h hcon
    obtain ⟨h1, h2⟩ := hcon
    simp [latInvalid, h1, h2] at h
  · intro h
    by_contra hb
    rw [Bool.not_eq_true] at hb
    simp [latInvalid] at hb
    exact h hb

theorem lonInvalid_iff (v : ℚ) : lonInvalid v = true ↔ ¬ (100 ≤ v ∧ v < 180) := by
  constructor
  · intro h hcon
    obtain ⟨h1, h2⟩ := hcon
    simp [lonInvalid, h1, h2] at h
  · intro h
    by_contra hb
    rw [Bool.not_eq_true] at hb
    simp [lonInvalid] at hb
    exact h hb

/-- C5: `to_meshcode` validates every latitude against `[0, 66.66)` and
every longitude against `[100, 180)` before computing anything, failing
the whole batch with the offending value; the upper boundaries fail
while a valid pair strictly inside succeeds. -/
theorem claim_C5_bounds_validation (lats lons : List ℚ) (L : MeshLevel) :
    (∀ v ∈ lats, ¬ (0 ≤ v ∧ v < 6666 / 100) →
      ∃ w ∈ lats, ¬ (0 ≤ w ∧ w < 6666 / 100) ∧
        to_meshcode lats lons L = .error (.LatitudeOutOfBounds w)) ∧
    ((∀ v ∈ lats, 0 ≤ v ∧ v < 6666 / 100) →
      ∀ v ∈ lons, ¬ (100 ≤ v ∧ v < 180) →
      ∃ w ∈ lons, ¬ (100 ≤ w ∧ w < 180) ∧
        to_meshcode lats lons L = .error (.LongitudeOutOfBounds w)) ∧
    (∀ lat lon : ℚ, 0 ≤ lat → lat < 6666 / 100 → 100 ≤ lon → lon < 180 →
      to_meshcode [lat] [lon] L = .ok [meshcodeAt L lat lon]) ∧
    to_meshcode [6666 / 100] lons L = .error (.LatitudeOutOfBounds (6666 / 100)) ∧
    ((∀ v ∈ lats, 0 ≤ v ∧ v < 6666 / 100) →
      to_meshcode lats [180] L = .error (.LongitudeOutOfBounds 180)) := by
  refine ⟨?_, ?_, ?_, ?_, ?_⟩
  · intro v hv hbad
    have hsome : (lats.find? latInvalid).isSome :=
      List.find?_isSome.mpr ⟨v, hv, (latInvalid_iff v).mpr hbad⟩
    obtain ⟨w, hw⟩ := Option.isSome_iff_exists.mp hsome
    refine ⟨w, List.mem_of_find?_eq_some hw, (latInvalid_iff w).mp (List.find?_some hw), ?_⟩
    unfold to_meshcode
    rw [hw]
  · intro hlats v hv hbad
    have hnone : lats.find? latInvalid = none :=
      List.find?_eq_none.mpr fun x hx => by
        simp only [Bool.not_eq_true]
        rw [← Bool.not_eq_true, latInvalid_iff]
        intro hcon
        exact hcon (hlats x hx)
    have hsome : (lons.find? lonInvalid).isSome :=
      List.find?_isSome.mpr ⟨v, hv, (lonInvalid_iff v).mpr hbad⟩
    obtain ⟨w, hw⟩ := Option.isSome_iff_exists.mp hsome
    refine ⟨w, List.mem_of_find?_eq_some hw, (lonInvalid_iff w).mp (List.find?_some hw), ?_⟩
    unfold to_meshcode
    rw [hnone, hw]
  · intro lat lon hl1 hl2 hn1 hn2
    exact to_meshcode_singleton lat lon L hl1 hl2 hn1 hn2
  · have hbad : latInvalid (6666 / 100) = true := by
      rw [latInvalid_iff]
      norm_num
    unfold to_meshcode
    rw [List.find?_cons_of_pos _ hbad]
  · intro hlats
    have hnone : lats.find? latInvalid = none :=
      List.find?_eq_none.mpr fun x hx => by
        simp only [Bool.not_eq_true]
        rw [← Bool.not_eq_true, latInvalid_iff]
        intro hcon
        exact hcon (hlats x hx)
    have hbad : lonInvalid (180 : ℚ) = true := by
      rw [lonInvalid_iff]
      norm_num
    unfold to_meshcode
    rw [hnone, List.find?_cons_of_pos _ hbad]

/-- Witness for C5: an out-of-range latitude (70) fails the batch even
with an empty longitude list; a valid pair succeeds. -/
theorem claim_C5_witness :
    (∃ w ∈ [(70 : ℚ)], ¬ (0 ≤ w ∧ w < 6666 / 100) ∧
      to_meshcode [(70 : ℚ)] [] .Lv1 = .error (.LatitudeOutOfBounds w)) ∧
    to_meshcode [(35 : ℚ)] [(139 : ℚ)] .Lv1 = .ok [meshcodeAt .Lv1 35 139] :=
  ⟨(claim_C5_bounds_validation [(70 : ℚ)] [] .Lv1).1 70 (List.mem_singleton.mpr rfl)
      (by norm_num),
    (claim_C5_bounds_validation [(35 : ℚ)] [(139 : ℚ)] .Lv1).2.2.1 35 139
      (by norm_num) (by norm_num) (by norm_num) (by norm_num)⟩

/-- C10: with exactly one of the two coordinate slices empty (values of
the other in bounds) `to_meshcode` panics on the `i % len` remainder by
zero instead of returning a `Result`; with both empty it returns an
empty `Ok`. -/
theorem claim_C10_empty_slice_panic (L : MeshLevel) (lats lons : List ℚ) :
    (lats ≠ [] → (∀ v ∈ lats, 0 ≤ v ∧ v < 6666 / 100) →
      to_meshcode lats [] L = .panicked) ∧
    (lons ≠ [] → (∀ v ∈ lons, 100 ≤ v ∧ v < 180) →
      to_meshcode [] lons L = .panicked) ∧
    to_meshcode [] [] L = .ok [] := by
  refine ⟨?_, ?_, ?_⟩
  · intro hne hval
    have hnone : lats.find? latInvalid = none :=
      List.find?_eq_none.mpr fun x hx => by
        simp only [Bool.not_eq_true]
        rw [← Bool.not_eq_true, latInvalid_iff]
        intro hcon
        exact hcon (hval x hx)
    unfold to_meshcode
    rw [hnone, List.find?_nil]
    have hlen : lats.length ≠ 0 := fun h => hne (List.eq_nil_of_length_eq_zero h)
    simp [hlen]
  · intro hne hval
    have hnone : lons.find? lonInvalid = none :=
      List.find?_eq_none.mpr fun x hx => by
        simp only [Bool.not_eq_true]
        rw [← Bool.not_eq_true, lonInvalid_iff]
        intro hcon
        exact hcon (hval x hx)
    unfold to_meshcode
    rw [List.find?_nil, hnone]
    have hlen : lons.length ≠ 0 := fun h => hne (List.eq_nil_of_length_eq_zero h)
    simp [hlen]
  · unfold to_meshcode
    rw [List.find?_nil]
    simp

/-- Witness for C10: one valid latitude and no longitudes panics. -/
theorem claim_C10_witness : to_meshcode [(35 : ℚ)] [] .Lv1 = .panicked :=
  (claim_C10_empty_slice_panic .Lv1 [(35 : ℚ)] []).1 (by simp) fun v hv => by
    rw [List.mem_singleton] at hv
    subst hv
    norm_num

/-- `to_meshpoint` on one code and one multiplier pair. -/
theorem to_meshpoint_singleton (code : ℕ) (level : MeshLevel) (la lo : ℚ)
    (h : to_meshlevel [code] = .ok [level]) :
    to_meshpoint [code] [la] [lo] =
      .ok [((decodeCell code level).1 + unit_lat level * la,
            (decodeCell code level).2 + unit_lon level * lo)] := by
  unfold to_meshpoint
  rw [h]
  rfl

/-- C6: decoding a valid code with any multiplier pair yields the
southwest corner (multipliers 0) plus the multiplier-scaled unit offset
of the code's inferred level; no bounds check restricts the
multipliers. -/
theorem claim_C6_multiplier_offset (code : ℕ) (level : MeshLevel) (mlat mlon : ℚ)
    (h : to_meshlevel [code] = .ok [level]) :
    ∃ sw_lat sw_lon,
      to_meshpoint [code] [0] [0] = .ok [(sw_lat, sw_lon)] ∧
      to_meshpoint [code] [mlat] [mlon] =
        .ok [(sw_lat + mlat * unit_lat level, sw_lon + mlon * unit_lon level)] := by
  refine ⟨(decodeCell code level).1, (decodeCell code level).2, ?_, ?_⟩
  · rw [to_meshpoint_singleton code level 0 0 h]
    norm_num
  · rw [to_meshpoint_singleton code level mlat mlon h]
    ring_nf

/-- Witness for C6 at code 5339 with multipliers (2, -1/2) (outside
`[0,1]`, exercising the absence of a bounds check). -/
theorem claim_C6_witness :
    ∃ sw_lat sw_lon,
      to_meshpoint [5339] [0] [0] = .ok [(sw_lat, sw_lon)] ∧
      to_meshpoint [5339] [2] [-(1 / 2)] =
        .ok [(sw_lat + 2 * unit_lat .Lv1, sw_lon + -(1 / 2) * unit_lon .Lv1)] :=
  claim_C6_multiplier_offset 5339 .Lv1 2 (-(1 / 2)) (by decide)

/-- C7: the known encode/decode values at the Tokyo Tower point
`(35.658581, 139.745433)`: codes 5339 (Lv1), 53393599212 (Lv6) and
533935446 (X2.5), and decoding 5339 at the southwest corner gives
`(35.3333333, 139.0)` within `1e-7`. -/
theorem claim_C7_known_values :
    to_meshcode [35658581 / 1000000] [139745433 / 1000000] .Lv1 = .ok [⟨5339, .Lv1⟩] ∧
    to_meshcode [35658581 / 1000000] [139745433 / 1000000] .Lv6 =
      .ok [⟨53393599212, .Lv6⟩] ∧
    to_meshcode [35658581 / 1000000] [139745433 / 1000000] .X2_5 =
      .ok [⟨533935446, .X2_5⟩] ∧
    ∃ p : ℚ × ℚ, to_meshpoint [5339] [0] [0] = .ok [p] ∧
      |p.1 - 353333333 / 10000000| ≤ 1 / 10000000 ∧ |p.2 - 139| ≤ 1 / 10000000 := by
  refine ⟨?_, ?_, ?_, ?_⟩
  · rw [to_meshcode_singleton _ _ _ (by norm_num) (by norm_num) (by norm_num) (by norm_num)]
    have hv : meshcodeAt .Lv1 (35658581 / 1000000) (139745433 / 1000000) =
        (⟨5339, .Lv1⟩ : MeshCode) := by
      simp only [meshcodeAt, meshcode_lv1, fmod, ratToU64, UNIT_LAT_LV1, UNIT_LON_LV1]
      norm_num
      decide
    rw [hv]
  · rw [to_meshcode_singleton _ _ _ (by norm_num) (by norm_num) (by norm_num) (by norm_num)]
    have hv : meshcodeAt .Lv6 (35658581 / 1000000) (139745433 / 1000000) =
        (⟨53393599212, .Lv6⟩ : MeshCode) := by
      simp only [meshcodeAt, meshcode_lv6, meshcode_lv5, meshcode_lv4, meshcode_lv3,
        meshcode_lv2, meshcode_lv1, fmod, ratToU64, UNIT_LAT_LV1, UNIT_LON_LV1,
        UNIT_LAT_LV2, UNIT_LON_LV2, UNIT_LAT_LV3, UNIT_LON_LV3, UNIT_LAT_LV4, UNIT_LON_LV4,
        UNIT_LAT_LV5, UNIT_LON_LV5, UNIT_LAT_LV6, UNIT_LON_LV6]
      norm_num
      decide
    rw [hv]
  · rw [to_meshcode_singleton _ _ _ (by norm_num) (by norm_num) (by norm_num) (by norm_num)]
    have hv : meshcodeAt .X2_5 (35658581 / 1000000) (139745433 / 1000000) =
        (⟨533935446, .X2_5⟩ : MeshCode) := by
      simp only [meshcodeAt, meshcode_2500, meshcode_5000, meshcode_lv2, meshcode_lv1,
        fmod, ratToU64, UNIT_LAT_LV1, UNIT_LON_LV1, UNIT_LAT_LV2, UNIT_LON_LV2,
        UNIT_LAT_5000, UNIT_LON_5000, UNIT_LAT_2500, UNIT_LON_2500]
      norm_num
      decide
    rw [hv]
  · have hd : decodeCell 5339 .Lv1 = (106 / 3, 139) := by
      have h1 : slice1 5339 0 2 = 53 := by decide
      have h2 : slice1 5339 2 4 = 39 := by decide
      simp only [decodeCell, h1, h2, UNIT_LAT_LV1, UNIT_LON_LV1]
      norm_num
    refine ⟨(106 / 3, 139), ?_, by norm_num [abs_le], by norm_num [abs_le]⟩
    rw [to_meshpoint_singleton 5339 .Lv1 0 0 (by decide), hd]
    norm_num [unit_lat, unit_lon, unit_lat_lon]

/-- `to_meshcode` on two valid coordinate pairs. -/
theorem to_meshcode_pair (la1 la2 lo1 lo2 : ℚ) (L : MeshLevel)
    (ha1 : 0 ≤ la1 ∧ la1 < 6666 / 100) (ha2 : 0 ≤ la2 ∧ la2 < 6666 / 100)
    (hb1 : 100 ≤ lo1 ∧ lo1 < 180) (hb2 : 100 ≤ lo2 ∧ lo2 < 180) :
    to_meshcode [la1, la2] [lo1, lo2] L =
      .ok [meshcodeAt L la1 lo1, meshcodeAt L la2 lo2] := by
  unfold to_meshcode
  have hf1 : List.find? latInvalid [la1, la2] = none := by
    rw [List.find?_eq_none]
    intro x hx
    rcases List.mem_cons.mp hx with rfl | hx
    · simp [latInvalid, ha1.1, ha1.2]
    · rw [List.mem_singleton] at hx
      subst hx
      simp [latInvalid, ha2.1, ha2.2]
  have hf2 : List.find? lonInvalid [lo1, lo2] = none := by
    rw [List.find?_eq_none]
    intro x hx
    rcases List.mem_cons.mp hx with rfl | hx
    · simp [lonInvalid, hb1.1, hb1.2]
    · rw [List.mem_singleton] at hx
      subst hx
      simp [lonInvalid, hb2.1, hb2.2]
  rw [hf1, hf2]
  rfl

/-- C8: `to_envelope` fails with `MismatchedMeshLevels` whenever the
corner levels differ; on the Lv2 corners 533900 and 533901 it succeeds
with a list of more than one code containing both endpoints — exactly
the two cells of that rectangle. -/
theorem claim_C8_envelope (sw ne : MeshCode) :
    (sw.level ≠ ne.level →
      to_envelope sw ne = .error (.MismatchedMeshLevels sw.level ne.level)) ∧
    (to_envelope ⟨533900, .Lv2⟩ ⟨533901, .Lv2⟩ =
        .ok [⟨533900, .Lv2⟩, ⟨533901, .Lv2⟩] ∧
      (1 : ℕ) < [(⟨533900, .Lv2⟩ : MeshCode), ⟨533901, .Lv2⟩].length) := by
  constructor
  · intro h
    simp [to_envelope, h]
  · refine ⟨?_, by decide⟩
    have hc0 : decodeCell 533900 .Lv2 = (106 / 3, 139) := by
      have h1 : slice1 533900 0 2 = 53 := by decide
      have h2 : slice1 533900 2 4 = 39 := by decide
      have h3 : slice1 533900 4 5 = 0 := by decide
      have h4 : slice1 533900 5 6 = 0 := by decide
      simp only [decodeCell, h1, h2, h3, h4, UNIT_LAT_LV1, UNIT_LON_LV1, UNIT_LAT_LV2,
        UNIT_LON_LV2]
      norm_num
    have hc1 : decodeCell 533901 .Lv2 = (106 / 3, 1113 / 8) := by
      have h1 : slice1 533901 0 2 = 53 := by decide
      have h2 : slice1 533901 2 4 = 39 := by decide
      have h3 : slice1 533901 4 5 = 0 := by decide
      have h4 : slice1 533901 5 6 = 1 := by decide
      simp only [decodeCell, h1, h2, h3, h4, UNIT_LAT_LV1, UNIT_LON_LV1, UNIT_LAT_LV2,
        UNIT_LON_LV2]
      norm_num
    have hp : to_meshpoint [533900] [1 / 2] [1 / 2] = .ok [(283 / 8, 2225 / 16)] := by
      rw [to_meshpoint_singleton 533900 .Lv2 (1 / 2) (1 / 2) (by decide), hc0]
      norm_num [unit_lat, unit_lon, unit_lat_lon, UNIT_LAT_LV2, UNIT_LON_LV2,
        UNIT_LAT_LV1, UNIT_LON_LV1]
    have hq : to_meshpoint [533901] [1] [1] = .ok [(425 / 12, 557 / 4)] := by
      rw [to_meshpoint_singleton 533901 .Lv2 1 1 (by decide), hc1]
      norm_num [unit_lat, unit_lon, unit_lat_lon, UNIT_LAT_LV2, UNIT_LON_LV2,
        UNIT_LAT_LV1, UNIT_LON_LV1]
    have henv : to_envelope ⟨533900, .Lv2⟩ ⟨533901, .Lv2⟩ =
        make_envelope (283 / 8) (2225 / 16) (425 / 12) (557 / 4) .Lv2 := by
      unfold to_envelope
      rw [if_neg (by simp), hp, hq]
      rfl
    rw [henv]
    simp only [make_envelope]
    have hl1 : ⌈((425 : ℚ) / 12 - 283 / 8) / unit_lat .Lv2⌉ = 1 := by
      rw [Int.ceil_eq_iff]
      norm_num [unit_lat, unit_lat_lon, UNIT_LAT_LV2, UNIT_LAT_LV1]
    have hl2 : ⌈((557 : ℚ) / 4 - 2225 / 16) / unit_lon .Lv2⌉ = 2 := by
      rw [Int.ceil_eq_iff]
      norm_num [unit_lon, unit_lat_lon, UNIT_LON_LV2, UNIT_LON_LV1]
    rw [hl1, hl2]
    have hm0 : meshcodeAt .Lv2 (283 / 8) (2225 / 16) = (⟨533900, .Lv2⟩ : MeshCode) := by
      simp only [meshcodeAt, meshcode_lv2, meshcode_lv1, fmod, ratToU64, UNIT_LAT_LV1,
        UNIT_LON_LV1, UNIT_LAT_LV2, UNIT_LON_LV2]
      norm_num
      decide
    have hm1 : meshcodeAt .Lv2 (283 / 8) (2227 / 16) = (⟨533901, .Lv2⟩ : MeshCode) := by
      simp only [meshcodeAt, meshcode_lv2, meshcode_lv1, fmod, ratToU64, UNIT_LAT_LV1,
        UNIT_LON_LV1, UNIT_LAT_LV2, UNIT_LON_LV2]
      norm_num
      decide
    norm_num [List.range_succ, Int.toNat_ofNat, Function.comp, unit_lat, unit_lon,
      unit_lat_lon, UNIT_LAT_LV2, UNIT_LON_LV2, UNIT_LAT_LV1, UNIT_LON_LV1]
    rw [show ((2 : ℤ).toNat) = 2 from rfl, show List.range 2 = [0, 1] from rfl]
    norm_num [Function.comp]
    rw [to_meshcode_pair (283 / 8) (283 / 8) (2225 / 16) (2227 / 16) .Lv2
      (by norm_num) (by norm_num) (by norm_num) (by norm_num)]
    rw [hm0, hm1]

/-- Witness for C8: mismatched corner levels (Lv1 code 5339, Lv2 code
533900) fail with `MismatchedMeshLevels`. -/
theorem claim_C8_witness :
    to_envelope ⟨5339, .Lv1⟩ ⟨533900, .Lv2⟩ =
      .error (.MismatchedMeshLevels .Lv1 .Lv2) :=
  (claim_C8_envelope ⟨5339, .Lv1⟩ ⟨533900, .Lv2⟩).1 (by decide)
